import Mathlib

/-!
Verification of the W3C Trace Context codec in
src/lib/transaction/tracecontext.js (class TraceContext).

The JavaScript source is shallowly embedded below.  JS strings are Lean
String values; JS string.split(sep) with a one-character separator is
jsSplit; JS numbers that flow through this codec are modeled as JNum
(either NaN or an exact rational); null and undefined are modeled as
Option.none wherever the source can only distinguish them through
loose equality (v == null), coercion to Boolean, or stringification,
all of which treat them alike on every path of this file.
parseInt/parseFloat are modeled on the fragment of their grammar the
codec can meet: leading whitespace, an optional sign, a 0x prefix for
radix-free parseInt, and decimal digit runs with an optional decimal
point for parseFloat.  Exponent suffixes and the Infinity literal of
parseFloat are outside the modeled fragment.
-/

namespace TraceCtx

/-- Decimal digit character, as matched by the digit runs parseInt and
parseFloat consume. -/
def isDigit10 (c : Char) : Bool := '0' ≤ c && c ≤ '9'

/-- Lowercase hexadecimal digit, the character class [a-f0-9] used by the
traceparent field regular expressions. -/
def isHexLower (c : Char) : Bool := isDigit10 c || ('a' ≤ c && c ≤ 'f')

/-- Hex digit of either case, as accepted by parseInt after a 0x prefix. -/
def isHexAny (c : Char) : Bool := isHexLower c || ('A' ≤ c && c ≤ 'F')

/-- Whitespace skipped by parseInt and parseFloat (the common ASCII cases). -/
def jsWhitespace (c : Char) : Bool := c = ' ' || c = '\t' || c = '\n' || c = '\r'

/-- Numeric value of a digit character (both cases of hex letters). -/
def digitVal (c : Char) : ℕ :=
  if isDigit10 c then c.toNat - 48
  else if 'a' ≤ c && c ≤ 'f' then c.toNat - 87
  else if 'A' ≤ c && c ≤ 'F' then c.toNat - 55
  else 0

/-- Value of a digit run in the given base, most significant digit first. -/
def parseDigits (base : ℕ) (l : List Char) : ℕ :=
  l.foldl (fun a c => base * a + digitVal c) 0

/-- Splitting a character list at every occurrence of a separator, the
semantics of JS String.prototype.split with a one-character separator:
the result always has one more chunk than there are separators, so it is
never empty, and empty chunks are kept. -/
def splitChars (sep : Char) : List Char → List (List Char)
  | [] => [[]]
  | c :: cs =>
    if c = sep then [] :: splitChars sep cs
    else
      match splitChars sep cs with
      | [] => [[c]]
      | h :: t => (c :: h) :: t

/-- JS string.split(sep) for a one-character separator. -/
def jsSplit (s : String) (sep : Char) : List String :=
  (splitChars sep s.data).map String.mk

/-- Joining chunks with a separator, the semantics of Array.prototype.join
with a one-character separator. -/
def joinChars (sep : Char) : List (List Char) → List Char
  | [] => []
  | [x] => x
  | x :: xs => x ++ sep :: joinChars sep xs

/-- JS array.join(sep) over strings, for a one-character separator. -/
def jsJoin (sep : Char) (l : List String) : String :=
  ⟨joinChars sep (l.map String.data)⟩

/-- A JS number as this codec can observe it: NaN or an exact value. -/
inductive JNum where
  | nan : JNum
  | num (q : ℚ) : JNum
deriving DecidableEq, Repr

/-- Leading sign of a numeric literal, consumed by parseInt/parseFloat. -/
def splitSign : List Char → Bool × List Char
  | '-' :: r => (true, r)
  | '+' :: r => (false, r)
  | l => (false, l)

/-- Detects the 0x / 0X prefix that switches radix-free parseInt to hex. -/
def startsWith0x : List Char → Bool
  | a :: b :: _ => a = '0' && (b = 'x' || b = 'X')
  | _ => false

/-- Core of JS parseInt on a character list.  With noRadix set it models
parseInt(v) as the source calls it for version, parentType and timestamp
(radix 10 unless the digits begin with 0x); without it, parseInt(v, 10). -/
def parseIntCore (noRadix : Bool) (l : List Char) : JNum :=
  let l1 := l.dropWhile jsWhitespace
  let p := splitSign l1
  let neg := p.1
  let l2 := p.2
  if noRadix && startsWith0x l2 then
    let hs := (l2.drop 2).takeWhile isHexAny
    if hs.isEmpty then .nan
    else .num ((if neg then -1 else 1) * (parseDigits 16 hs : ℚ))
  else
    let ds := l2.takeWhile isDigit10
    if ds.isEmpty then .nan
    else .num ((if neg then -1 else 1) * (parseDigits 10 ds : ℚ))

/-- JS parseInt(s) with no radix argument. -/
def parseIntStr (s : String) : JNum := parseIntCore true s.data

/-- JS parseInt(s, 10). -/
def parseIntStr10 (s : String) : JNum := parseIntCore false s.data

/-- JS parseInt applied to a possibly null/undefined value: null and
undefined stringify to "null" / "undefined", neither of which starts with
a digit, so both give NaN. -/
def parseIntJS : Option String → JNum
  | none => .nan
  | some s => parseIntStr s

/-- JS parseFloat on the decimal fragment of its grammar: optional
whitespace and sign, then digits with an optional decimal point (digits
on at least one side of the point).  Exponent suffixes and Infinity are
not modeled. -/
def parseFloatChars (l : List Char) : JNum :=
  let l1 := l.dropWhile jsWhitespace
  let p := splitSign l1
  let neg := p.1
  let l2 := p.2
  let ds := l2.takeWhile isDigit10
  let rest := l2.dropWhile isDigit10
  match rest with
  | '.' :: r2 =>
    let fs := r2.takeWhile isDigit10
    if ds.isEmpty && fs.isEmpty then .nan
    else
      let v : ℚ := (parseDigits 10 ds : ℚ) + (parseDigits 10 fs : ℚ) / (10 : ℚ) ^ fs.length
      .num (if neg then -v else v)
  | _ =>
    if ds.isEmpty then .nan
    else .num ((if neg then -1 else 1) * (parseDigits 10 ds : ℚ))

/-- JS parseFloat on a string. -/
def parseFloatStr (s : String) : JNum := parseFloatChars s.data

/-- Decimal digits of a natural number, most significant first, as JS
template interpolation renders a non-negative integer-valued number. -/
def natToDigits (n : ℕ) : List Char :=
  if _h : n < 10 then [Nat.digitChar n]
  else natToDigits (n / 10) ++ [Nat.digitChar (n % 10)]
termination_by n
decreasing_by exact Nat.div_lt_self (by omega) (by omega)

/-- Decimal rendering of a natural number. -/
def natRepr (n : ℕ) : String := ⟨natToDigits n⟩

/-- Decimal rendering of an integer, as JS template interpolation does. -/
def intRepr : ℤ → String
  | .ofNat n => natRepr n
  | .negSucc n => ⟨'-' :: natToDigits (n + 1)⟩

/-- Base-16 digits of a natural number, as JS number.toString(16). -/
def natToHexDigits (n : ℕ) : List Char :=
  if _h : n < 16 then [Nat.digitChar n]
  else natToHexDigits (n / 16) ++ [Nat.digitChar (n % 16)]
termination_by n
decreasing_by exact Nat.div_lt_self (by omega) (by omega)

/-- JS string.padStart(n, c): left-pad with c up to length n. -/
def padStart (s : String) (n : ℕ) (c : Char) : String :=
  ⟨List.replicate (n - s.data.length) c ++ s.data⟩

/-- Fraction digits of Number.prototype.toFixed(6): exactly six characters,
zero-padded on the left. -/
def pad6 (k : ℕ) : List Char :=
  List.replicate (6 - (natToDigits k).length) '0' ++ natToDigits k

/-- JS number.toFixed(6) modeled for the non-negative priorities the encoder
feeds it: six fraction digits, rounding half away from zero.  (For the
priorities the round-trip property quantifies over, q * 10^6 is an integer
and no rounding occurs; negative numbers do not arise because the encoder
only formats truthy priorities, which the agent keeps non-negative.) -/
def toFixed6 (q : ℚ) : String :=
  let n : ℕ := (⌊q * 1000000 + 1 / 2⌋).toNat
  ⟨natToDigits (n / 1000000) ++ '.' :: pad6 (n % 1000000)⟩

/-- JS array.indexOf for string arrays: first index, or -1. -/
def jsIndexOf (l : List String) (x : String) : ℤ :=
  match l.findIdx? (· = x) with
  | some i => (i : ℤ)
  | none => -1

/-- JS array[i] for a string array indexed by a number: an element when the
index is an exact non-negative integer in range, undefined otherwise
(fractional, negative, NaN or out-of-range indices all miss). -/
def jsArrayGet (l : List String) : JNum → Option String
  | .nan => none
  | .num q => if q.den = 1 ∧ 0 ≤ q.num then l[q.num.toNat]? else none

/-! Constants of tracecontext.js. -/

def W3C_TRACEPARENT_VERSION : String := "00"

def NR_TRACESTATE_VERSION : ℕ := 0

def PARENT_TYPES : List String := ["App", "Browser", "Mobile"]

/-- VERSION_VALID_RGX: two lowercase hex digits, ff excluded. -/
def versionValid (s : String) : Bool :=
  s.data.length = 2 && s.data.all isHexLower && s ≠ "ff"

/-- TRACEID_VALID_RGX: 32 lowercase hex digits, not all zero. -/
def traceIdValid (s : String) : Bool :=
  s.data.length = 32 && s.data.all isHexLower && !s.data.all (· = '0')

/-- PARENTID_VALID_RGX: 16 lowercase hex digits, not all zero. -/
def parentIdValid (s : String) : Bool :=
  s.data.length = 16 && s.data.all isHexLower && !s.data.all (· = '0')

/-- FLAGS_VALID_RGX: two lowercase hex digits. -/
def flagsValid (s : String) : Bool :=
  s.data.length = 2 && s.data.all isHexLower

/-! The decode path. -/

/-- Result of _validateAndParseTraceParentHeader. -/
structure TraceParentInfo where
  entryValid : Bool
  version : Option String
  traceId : Option String
  parentId : Option String
  flags : Option String
deriving DecidableEq, Repr

/-- The all-null, invalid traceParentInfo the source initializes. -/
def emptyTraceParentInfo : TraceParentInfo := ⟨false, none, none, none, none⟩

/-- The exception raised when JS dereferences a method of undefined. -/
def jsTypeError : String := "TypeError: Cannot read properties of undefined"

/-- _validateAndParseTraceParentHeader.  The destructuring
[version, traceId, parentId, flags] = parts leaves fields past the end of
parts undefined, and the conjunction of match calls evaluates left to
right with short-circuiting, so calling .match on an undefined field
raises a TypeError, modeled as the error case. -/
def validateAndParseTraceParentHeader (traceparent : String) :
    Except String TraceParentInfo :=
  if traceparent = "" then .ok emptyTraceParentInfo
  else
    let parts := jsSplit traceparent '-'
    if parts.headI = W3C_TRACEPARENT_VERSION ∧ parts.length ≠ 4 then
      .ok emptyTraceParentInfo
    else
      let version := parts.headI
      if versionValid version then
        match parts[1]? with
        | none => .error jsTypeError
        | some traceId =>
          if traceIdValid traceId then
            match parts[2]? with
            | none => .error jsTypeError
            | some parentId =>
              if parentIdValid parentId then
                match parts[3]? with
                | none => .error jsTypeError
                | some flags =>
                  if flagsValid flags then
                    .ok ⟨true, some version, some traceId, some parentId, some flags⟩
                  else .ok emptyTraceParentInfo
              else .ok emptyTraceParentInfo
          else .ok emptyTraceParentInfo
      else .ok emptyTraceParentInfo

/-- The nine positional slots of a New Relic tracestate entry value, before
type coercion: each is a string, or null for an empty slot, or undefined
(also none here) for a slot past the end of the split. -/
structure RawIntrinsics where
  version : Option String
  parentType : Option String
  accountId : Option String
  appId : Option String
  spanId : Option String
  transactionId : Option String
  sampled : Option String
  priority : Option String
  timestamp : Option String
deriving DecidableEq, Repr

/-- _extractTraceStateIntrinsics: split the value on dashes, turn empty
strings into null, and read the nine positional slots. -/
def extractTraceStateIntrinsics (nrTracestate : String) : RawIntrinsics :=
  let splitValues := (jsSplit nrTracestate '-').map
    (fun value => if value = "" then none else some value)
  let slot := fun i => splitValues.getD i none
  { version := slot 0, parentType := slot 1, accountId := slot 2, appId := slot 3,
    spanId := slot 4, transactionId := slot 5, sampled := slot 6, priority := slot 7,
    timestamp := slot 8 }

/-- The intrinsics after the type conversions of _parseIntrinsics. -/
structure ParsedIntrinsics where
  version : JNum
  parentType : JNum
  accountId : Option String
  appId : Option String
  spanId : Option String
  transactionId : Option String
  sampled : Option JNum
  priority : Option JNum
  timestamp : JNum
deriving DecidableEq, Repr

/-- _parseIntrinsics: apply the conversion table.  version, parentType and
timestamp go through parseInt unconditionally (null becomes NaN); sampled
and priority keep null and otherwise go through parseInt(v, 10) and
parseFloat. -/
def parseIntrinsics (nrTracestateValue : String) : ParsedIntrinsics :=
  let i := extractTraceStateIntrinsics nrTracestateValue
  { version := parseIntJS i.version
    parentType := parseIntJS i.parentType
    accountId := i.accountId
    appId := i.appId
    spanId := i.spanId
    transactionId := i.transactionId
    sampled := i.sampled.map parseIntStr10
    priority := i.priority.map parseFloatStr
    timestamp := parseIntJS i.timestamp }

/-- The isNaN invalidation on a converted number. -/
def isNaNJNum : JNum → Bool
  | .nan => true
  | .num _ => false

/-- The isNull invalidation as applied to the converted parentType: parseInt
always returns a number, and no number (NaN included) is loosely equal to
null, so this check is false on every input. -/
def isNullNum (_ : JNum) : Bool := false

/-- The invalidation for the optional sampled/priority fields:
v == null ? false : isNaN(v). -/
def isNaNOpt : Option JNum → Bool
  | none => false
  | some n => isNaNJNum n

/-- Boolean(v) for the converted sampled field: null, NaN and 0 are falsy,
every other number is truthy. -/
def jsTruthySampled : Option JNum → Bool
  | none => false
  | some .nan => false
  | some (.num q) => q ≠ 0

/-- Reason string recorded for a failed invalidation check. -/
def invalidReasonFor (key : String) : String := key ++ " failed invalidation test"

/-- Result of _validateAndParseIntrinsics (the entryValid flag the source
later deletes from the object it hands back is kept as a field here). -/
structure ValidatedIntrinsics where
  version : JNum
  parentType : Option String
  accountId : Option String
  appId : Option String
  spanId : Option String
  transactionId : Option String
  sampled : Bool
  priority : Option JNum
  timestamp : JNum
  entryValid : Bool
  entryInvalidReason : Option String
deriving DecidableEq, Repr

/-- _validateAndParseIntrinsics: run every entry of the invalidation table
in insertion order (a later failure overwrites the recorded reason),
then normalize sampled to a Boolean and parentType to the looked-up
PARENT_TYPES label, invalidating the entry when the lookup misses. -/
def validateAndParseIntrinsics (nrTracestateValue : String) : ValidatedIntrinsics :=
  let intrinsics := parseIntrinsics nrTracestateValue
  let acc : Bool × Option String := (true, none)
  let acc := if isNaNJNum intrinsics.version then
    (false, some (invalidReasonFor "version")) else acc
  let acc := if isNullNum intrinsics.parentType then
    (false, some (invalidReasonFor "parentType")) else acc
  let acc := if intrinsics.accountId.isNone then
    (false, some (invalidReasonFor "accountId")) else acc
  let acc := if intrinsics.appId.isNone then
    (false, some (invalidReasonFor "appId")) else acc
  let acc := if isNaNOpt intrinsics.sampled then
    (false, some (invalidReasonFor "sampled")) else acc
  let acc := if isNaNOpt intrinsics.priority then
    (false, some (invalidReasonFor "priority")) else acc
  let acc := if isNaNJNum intrinsics.timestamp then
    (false, some (invalidReasonFor "timestamp")) else acc
  let sampled := jsTruthySampled intrinsics.sampled
  let parentType := jsArrayGet PARENT_TYPES intrinsics.parentType
  let entryValid := if parentType.isNone then false else acc.1
  { version := intrinsics.version, parentType := parentType,
    accountId := intrinsics.accountId, appId := intrinsics.appId,
    spanId := intrinsics.spanId, transactionId := intrinsics.transactionId,
    sampled := sampled, priority := intrinsics.priority,
    timestamp := intrinsics.timestamp,
    entryValid := entryValid, entryInvalidReason := acc.2 }

/-- Result of _validateAndParseTraceStateHeader.  vendors keeps the
undefined entries the source map callback returns for malformed members. -/
structure TraceStateData where
  entryFound : Bool
  entryValid : Option Bool
  entryInvalidReason : Option String
  traceStateValid : Option Bool
  intrinsics : Option ValidatedIntrinsics
  newTraceState : Option String
  vendors : List (Option String)
deriving DecidableEq, Repr

/-- _validateAndParseTraceStateHeader: split the header into list members,
collect their keys as vendors (flagging the whole header invalid when a
member does not split into exactly two parts on the equals sign), then
find the first trustedKey at-nr entry, remove it from both lists, validate
its value, and rejoin the rest as newTraceState.  On the invalid-entry
branch the source copies intrinsicsValidation.invalidReason, a property
the validator never sets (it records entryInvalidReason), so undefined is
stored. -/
def validateAndParseTraceStateHeader (trustedKey : String) (tracestate : String) :
    TraceStateData :=
  let listMembers := jsSplit tracestate ','
  let vendors : List (Option String) := listMembers.map (fun lm =>
    let split := jsSplit lm '='
    if split.length ≠ 2 then none else some split.headI)
  if vendors.any (·.isNone) then
    { entryFound := false, entryValid := none, entryInvalidReason := none,
      traceStateValid := some false, intrinsics := none, newTraceState := none,
      vendors := vendors }
  else
    match vendors.findIdx? (· = some (trustedKey ++ "@nr")) with
    | some nrVendorIndex =>
      let remainingVendors := vendors.eraseIdx nrVendorIndex
      let nrTraceStateEntry := listMembers.getD nrVendorIndex ""
      let remainingMembers := listMembers.eraseIdx nrVendorIndex
      let nrTraceStateValue := (jsSplit nrTraceStateEntry '=').getD 1 ""
      let intrinsicsValidation := validateAndParseIntrinsics nrTraceStateValue
      if intrinsicsValidation.entryValid then
        { entryFound := true, entryValid := some true, entryInvalidReason := none,
          traceStateValid := some true, intrinsics := some intrinsicsValidation,
          newTraceState := some (jsJoin ',' remainingMembers),
          vendors := remainingVendors }
      else
        { entryFound := true, entryValid := some false, entryInvalidReason := none,
          traceStateValid := some true, intrinsics := none,
          newTraceState := some (jsJoin ',' remainingMembers),
          vendors := remainingVendors }
    | none =>
      { entryFound := false, entryValid := none, entryInvalidReason := none,
        traceStateValid := some true, intrinsics := none,
        newTraceState := some (jsJoin ',' listMembers), vendors := vendors }

/-- The traceContextData object acceptTraceContextPayload assembles
(acceptedNRTracestate is declared by the source but never written). -/
structure TraceContextData where
  acceptedTraceparent : Bool
  acceptedTracestate : Bool
  acceptedNRTracestate : Bool
  traceId : Option String
  parentSpanId : Option String
  parentType : Option String
  accountId : Option String
  appId : Option String
  transactionId : Option String
  sampled : Option Bool
  priority : Option JNum
  transportDuration : Option JNum
deriving DecidableEq, Repr

/-- The all-false, all-null initial traceContextData. -/
def emptyTraceContextData : TraceContextData :=
  ⟨false, false, false, none, none, none, none, none, none, none, none, none⟩

/-- The mutable slots of a TraceContext instance a decode can write:
tracingVendors, trustedParentId and _traceStateRaw. -/
structure CodecState where
  tracingVendors : Option String
  trustedParentId : Option String
  traceStateRaw : Option String
deriving DecidableEq, Repr

/-- A freshly constructed TraceContext: all three slots null. -/
def initialCodecState : CodecState := ⟨none, none, none⟩

/-- Math.max(0, (Date.now() - timestamp) / 1000), with NaN propagating. -/
def transportDurationOf (now : ℚ) : JNum → JNum
  | .nan => .nan
  | .num ts => .num (max 0 ((now - ts) / 1000))

/-- acceptTraceContextPayload: the decode orchestrator.  Absent headers are
the empty string (the source only tests truthiness).  A TypeError from the
traceparent parser propagates.  now stands for Date.now(). -/
def acceptTraceContextPayload (trustedKey : String) (st : CodecState)
    (traceparent tracestate : String) (now : ℚ) :
    Except String (TraceContextData × CodecState) :=
  let d0 := emptyTraceContextData
  if traceparent = "" then .ok (d0, st)
  else
    match validateAndParseTraceParentHeader traceparent with
    | .error e => .error e
    | .ok parsedParent =>
      if parsedParent.entryValid then
        let d1 := { d0 with acceptedTraceparent := true,
                            traceId := parsedParent.traceId,
                            parentSpanId := parsedParent.parentId }
        if tracestate = "" then .ok (d1, st)
        else
          let parsedState := validateAndParseTraceStateHeader trustedKey tracestate
          if parsedState.traceStateValid ≠ some true then .ok (d1, st)
          else
            let st1 := { st with
              traceStateRaw := parsedState.newTraceState,
              tracingVendors :=
                some (jsJoin ',' (parsedState.vendors.map (fun v => v.getD ""))) }
            if parsedState.entryValid = some true then
              match parsedState.intrinsics with
              | none => .error jsTypeError
              | some intrinsics =>
                let d2 := { d1 with
                  acceptedTracestate := true,
                  parentType := intrinsics.parentType,
                  accountId := intrinsics.accountId,
                  appId := intrinsics.appId,
                  transactionId := intrinsics.transactionId,
                  sampled := some intrinsics.sampled,
                  priority := intrinsics.priority,
                  transportDuration :=
                    some (transportDurationOf now intrinsics.timestamp) }
                let st2 := { st1 with trustedParentId := intrinsics.spanId,
                                      traceStateRaw := parsedState.newTraceState }
                .ok (d2, st2)
            else .ok (d1, st1)
      else .ok (d0, st)

/-- The traceContextData after a traceparent has been accepted: the shape
acceptTraceContextPayload gives its working object right before it looks at
the tracestate. -/
def acceptedParentData (pinfo : TraceParentInfo) : TraceContextData :=
  { emptyTraceContextData with
      acceptedTraceparent := true,
      traceId := pinfo.traceId, parentSpanId := pinfo.parentId }

/-- The codec slots after a syntactically valid tracestate has been parsed:
newTraceState and the joined vendors are stored whether or not the vendor
entry itself was valid. -/
def storedStateAfter (st : CodecState) (parsedState : TraceStateData) : CodecState :=
  { st with
      traceStateRaw := parsedState.newTraceState,
      tracingVendors :=
        some (jsJoin ',' (parsedState.vendors.map (fun v => v.getD ""))) }

/-! The encode path. -/

/-- Configuration values the encoders read. -/
structure AgentConfig where
  trusted_account_key : String
  account_id : String
  primary_application_id : String
  span_events_enabled : Bool
  transaction_events_enabled : Bool

/-- Unit-of-work state the encoders read: trace id, the id of the active
segment if one is in context, transaction id, sampled flag and priority
(none models a null priority). -/
structure TransactionState where
  traceId : String
  segmentId : Option String
  id : String
  sampled : Bool
  priority : Option ℚ

/-- createFlagsHex: OR the active flag bits (only sampled exists) and render
as two zero-padded lowercase hex digits. -/
def createFlagsHex (sampled : Bool) : String :=
  let flagsNum : ℕ := if sampled then 1 else 0
  padStart ⟨natToHexDigits flagsNum⟩ 2 '0'

/-- The traceparent getter: zero-pad the trace id to 32, use the active
segment id (or a freshly generated id when the segment is missing or its
id is falsy) zero-padded to 16, and join with the fixed version and the
flags byte. -/
def traceparentHeader (tx : TransactionState) (freshId : String) : String :=
  let traceId := padStart tx.traceId 32 '0'
  let fromSegment := tx.segmentId.getD ""
  let parentId0 := if fromSegment = "" then freshId else fromSegment
  let parentId := padStart parentId0 16 '0'
  W3C_TRACEPARENT_VERSION ++ "-" ++ traceId ++ "-" ++ parentId ++ "-" ++
    createFlagsHex tx.sampled

/-- The tracestate getter: build the nine dash-joined positional fields
(span id empty when span events are off or no segment is in context,
transaction id empty when transaction events are off, priority empty when
falsy, else fixed to six decimals), prefix the trustedKey at-nr key, and
append the stored pass-through tracestate when one is truthy. -/
def tracestateHeader (config : AgentConfig) (tx : TransactionState)
    (traceStateRaw : Option String) (timestamp : ℕ) : String :=
  let version := natRepr NR_TRACESTATE_VERSION
  let parentType := intRepr (jsIndexOf PARENT_TYPES "App")
  let spanId := if config.span_events_enabled then tx.segmentId.getD "" else ""
  let transactionId := if config.transaction_events_enabled then tx.id else ""
  let sampled := if tx.sampled then "1" else "0"
  let priority := match tx.priority with
    | none => ""
    | some q => if q = 0 then "" else toFixed6 q
  let nrTraceState := config.trusted_account_key ++ "@nr=" ++ version ++ "-" ++
    parentType ++ "-" ++ config.account_id ++ "-" ++ config.primary_application_id ++
    "-" ++ spanId ++ "-" ++ transactionId ++ "-" ++ sampled ++ "-" ++ priority ++
    "-" ++ natRepr timestamp
  let raw := traceStateRaw.getD ""
  if raw = "" then nrTraceState else nrTraceState ++ "," ++ raw

/-! Supporting lemmas: splitting. -/

theorem splitChars_ne_nil (sep : Char) (l : List Char) : splitChars sep l ≠ [] := by
  induction l with
  | nil => simp [splitChars]
  | cons c cs ih =>
    simp only [splitChars]
    split
    · simp
    · match h : splitChars sep cs with
      | [] => simp
      | x :: xs => simp

theorem splitChars_eq_single {sep : Char} {l : List Char} (h : sep ∉ l) :
    splitChars sep l = [l] := by
  induction l with
  | nil => simp [splitChars]
  | cons c cs ih =>
    simp only [List.mem_cons, not_or] at h
    simp only [splitChars]
    rw [if_neg (fun hc => h.1 hc.symm), ih h.2]

theorem splitChars_append {sep : Char} {a : List Char} (h : sep ∉ a) (b : List Char) :
    splitChars sep (a ++ sep :: b) = a :: splitChars sep b := by
  induction a with
  | nil => simp [splitChars]
  | cons c cs ih =>
    simp only [List.mem_cons, not_or] at h
    simp only [List.cons_append, splitChars, List.append_eq]
    rw [if_neg (fun hc => h.1 hc.symm), ih h.2]

theorem mem_all_ne {p : Char → Bool} {l : List Char} {c : Char}
    (h : ∀ x ∈ l, p x = true) (hc : p c = false) : c ∉ l := by
  intro hmem
  rw [h c hmem] at hc
  simp at hc

/-! Supporting lemmas: digits and decimal rendering. -/

theorem digitChar_lemmas {d : ℕ} (h : d < 10) :
    (Nat.digitChar d).toNat = 48 + d ∧ isDigit10 (Nat.digitChar d) = true ∧
      digitVal (Nat.digitChar d) = d := by
  interval_cases d <;> exact ⟨by decide, by decide, by decide⟩

theorem isDigit10_digitChar {d : ℕ} (h : d < 10) : isDigit10 (Nat.digitChar d) = true :=
  (digitChar_lemmas h).2.1

theorem digitVal_digitChar {d : ℕ} (h : d < 10) : digitVal (Nat.digitChar d) = d :=
  (digitChar_lemmas h).2.2

theorem natToDigits_ne_nil (n : ℕ) : natToDigits n ≠ [] := by
  rw [natToDigits]
  split <;> simp

theorem natToDigits_all_digit (n : ℕ) : ∀ c ∈ natToDigits n, isDigit10 c = true := by
  induction n using Nat.strong_induction_on with
  | _ n ih =>
    rw [natToDigits]
    split
    · next h =>
      intro c hc
      simp only [List.mem_singleton] at hc
      subst hc
      exact isDigit10_digitChar h
    · next h =>
      intro c hc
      rw [List.mem_append] at hc
      rcases hc with hc | hc
      · exact ih (n / 10) (Nat.div_lt_self (by omega) (by omega)) c hc
      · simp only [List.mem_singleton] at hc
        subst hc
        exact isDigit10_digitChar (Nat.mod_lt _ (by omega))

theorem parseDigits_append (base : ℕ) (a : List Char) (c : Char) :
    parseDigits base (a ++ [c]) = base * parseDigits base a + digitVal c := by
  simp [parseDigits, List.foldl_append]

theorem parseDigits_natToDigits (n : ℕ) : parseDigits 10 (natToDigits n) = n := by
  induction n using Nat.strong_induction_on with
  | _ n ih =>
    rw [natToDigits]
    split
    · next h =>
      simp [parseDigits, digitVal_digitChar h]
    · next h =>
      rw [parseDigits_append, ih (n / 10) (Nat.div_lt_self (by omega) (by omega)),
        digitVal_digitChar (Nat.mod_lt _ (by omega))]
      omega

theorem parseDigits_replicate_zero (k : ℕ) (ds : List Char) :
    parseDigits 10 (List.replicate k '0' ++ ds) = parseDigits 10 ds := by
  induction k with
  | zero => simp
  | succ k ih =>
    simp only [List.replicate_succ, List.cons_append]
    show parseDigits 10 (List.replicate k '0' ++ ds) = _
    exact ih

theorem natToDigits_length_le {n k : ℕ} (hn : n < 10 ^ k) (hk : 1 ≤ k) :
    (natToDigits n).length ≤ k := by
  induction n using Nat.strong_induction_on generalizing k with
  | _ n ih =>
    rw [natToDigits]
    split
    · next h => simpa using hk
    · next h =>
      rw [List.length_append, List.length_singleton]
      have hk2 : 2 ≤ k := by
        by_contra hlt
        have : k = 1 := by omega
        subst this
        simp at hn
        omega
      have : n / 10 < 10 ^ (k - 1) := by
        have h10 : (10 : ℕ) ^ k = 10 ^ (k - 1) * 10 := by
          conv_lhs => rw [show k = (k - 1) + 1 by omega]
          ring
        rw [h10] at hn
        omega
      have := ih (n / 10) (Nat.div_lt_self (by omega) (by omega)) this (by omega)
      omega

/-! Supporting lemmas: character classes. -/

theorem not_ws_of_digit {c : Char} (h : isDigit10 c = true) : jsWhitespace c = false := by
  simp only [isDigit10, Bool.and_eq_true, decide_eq_true_eq] at h
  obtain ⟨h1, h2⟩ := h
  simp only [jsWhitespace, Bool.or_eq_false_iff, decide_eq_false_iff_not]
  refine ⟨⟨⟨fun he => ?_, fun he => ?_⟩, fun he => ?_⟩, fun he => ?_⟩ <;>
    (subst he; exact absurd h1 (by decide))

theorem digit_ne_sign {c : Char} (h : isDigit10 c = true) : c ≠ '-' ∧ c ≠ '+' := by
  constructor <;> (intro he; subst he; revert h; decide)

theorem hexLower_of_digit {c : Char} (h : isDigit10 c = true) : isHexLower c = true := by
  simp [isHexLower, h]

theorem splitSign_no_sign {c : Char} {l : List Char} (h1 : c ≠ '-') (h2 : c ≠ '+') :
    splitSign (c :: l) = (false, c :: l) := by
  simp [splitSign, h1, h2]

theorem startsWith0x_of_digits {l : List Char} (h : ∀ c ∈ l, isDigit10 c = true) :
    startsWith0x l = false := by
  match l with
  | [] => rfl
  | [_] => rfl
  | a :: b :: r =>
    have hb : isDigit10 b = true := h b (by simp)
    have hx : b ≠ 'x' := by intro he; subst he; revert hb; decide
    have hX : b ≠ 'X' := by intro he; subst he; revert hb; decide
    simp [startsWith0x, hx, hX]

theorem takeWhile_all {p : Char → Bool} {l : List Char} (h : ∀ c ∈ l, p c = true) :
    l.takeWhile p = l :=
  List.takeWhile_eq_self_iff.mpr h

theorem takeWhile_middle {p : Char → Bool} {a : List Char} {c : Char} (b : List Char)
    (ha : ∀ x ∈ a, p x = true) (hc : p c = false) :
    (a ++ c :: b).takeWhile p = a := by
  induction a with
  | nil => simp [List.takeWhile, hc]
  | cons x xs ih =>
    have hx : p x = true := ha x (by simp)
    simp only [List.cons_append, List.takeWhile_cons, hx]
    simp only [if_true]
    rw [ih (fun y hy => ha y (by simp [hy]))]

theorem dropWhile_middle {p : Char → Bool} {a : List Char} {c : Char} (b : List Char)
    (ha : ∀ x ∈ a, p x = true) (hc : p c = false) :
    (a ++ c :: b).dropWhile p = c :: b := by
  induction a with
  | nil => simp [List.dropWhile, hc]
  | cons x xs ih =>
    have hx : p x = true := ha x (by simp)
    simp only [List.cons_append, List.dropWhile_cons, hx, if_true]
    exact ih (fun y hy => ha y (by simp [hy]))

theorem dropWhile_head_not {p : Char → Bool} {c : Char} {l : List Char}
    (hc : p c = false) : (c :: l).dropWhile p = c :: l := by
  simp [List.dropWhile, hc]

/-! Supporting lemmas: parseInt and parseFloat on rendered numbers. -/

theorem parseIntStr_natRepr (n : ℕ) : parseIntStr (natRepr n) = .num n := by
  have hall := natToDigits_all_digit n
  obtain ⟨c, rest, hcons⟩ : ∃ c rest, natToDigits n = c :: rest := by
    match h : natToDigits n with
    | [] => exact absurd h (natToDigits_ne_nil n)
    | c :: rest => exact ⟨c, rest, rfl⟩
  have hc : isDigit10 c = true := hall c (by rw [hcons]; simp)
  have hdrop : (natToDigits n).dropWhile jsWhitespace = natToDigits n := by
    rw [hcons]; exact dropWhile_head_not (not_ws_of_digit hc)
  have hsign : splitSign (natToDigits n) = (false, natToDigits n) := by
    rw [hcons]
    exact splitSign_no_sign (digit_ne_sign hc).1 (digit_ne_sign hc).2
  have h0x : startsWith0x (natToDigits n) = false := startsWith0x_of_digits hall
  unfold parseIntStr parseIntCore natRepr
  simp only [hdrop, hsign, h0x, Bool.and_false, if_false, Bool.false_eq_true]
  rw [takeWhile_all hall]
  rw [List.isEmpty_eq_false_iff_exists_mem.mpr ⟨c, by rw [hcons]; simp⟩]
  simp [parseDigits_natToDigits n]

theorem pad6_all_digit (k : ℕ) : ∀ c ∈ pad6 k, isDigit10 c = true := by
  intro c hc
  rw [pad6, List.mem_append] at hc
  rcases hc with hc | hc
  · rw [List.eq_of_mem_replicate hc]; decide
  · exact natToDigits_all_digit k c hc

theorem pad6_length {k : ℕ} (h : k < 1000000) : (pad6 k).length = 6 := by
  have hle : (natToDigits k).length ≤ 6 :=
    natToDigits_length_le (by norm_num; omega) (by omega)
  simp [pad6, List.length_append, List.length_replicate]
  omega

theorem parseDigits_pad6 (k : ℕ) : parseDigits 10 (pad6 k) = k := by
  rw [pad6, parseDigits_replicate_zero, parseDigits_natToDigits]

theorem toFixed6_scaled {q : ℚ} (h0 : 0 < q) (h6 : (q * 1000000).den = 1) :
    ((⌊q * 1000000 + 1 / 2⌋).toNat : ℚ) = q * 1000000 := by
  have hint : ((q * 1000000).num : ℚ) = q * 1000000 :=
    Rat.coe_int_num_of_den_eq_one h6
  have hhalf : ⌊(1 / 2 : ℚ)⌋ = 0 := by
    rw [Int.floor_eq_iff]
    norm_num

  have hfloor : ⌊q * 1000000 + 1 / 2⌋ = (q * 1000000).num := by
    conv_lhs => rw [← hint]
    rw [add_comm, Int.floor_add_int, hhalf, zero_add]
  have hpos : 0 < (q * 1000000).num := Rat.num_pos.mpr (by positivity)
  have h2 : ((⌊q * 1000000 + 1 / 2⌋).toNat : ℤ) = (q * 1000000).num := by
    rw [hfloor]
    exact Int.toNat_of_nonneg (le_of_lt hpos)
  have h3 : ((⌊q * 1000000 + 1 / 2⌋).toNat : ℚ) = ((q * 1000000).num : ℚ) := by
    exact_mod_cast h2
  rw [h3, hint]

theorem parseFloatStr_toFixed6 {q : ℚ} (h0 : 0 < q) (h6 : (q * 1000000).den = 1) :
    parseFloatStr (toFixed6 q) = .num q := by
  set n : ℕ := (⌊q * 1000000 + 1 / 2⌋).toNat with hn
  have hnq : (n : ℚ) = q * 1000000 := toFixed6_scaled h0 h6
  have hmod : n % 1000000 < 1000000 := Nat.mod_lt _ (by omega)
  have hdA := natToDigits_all_digit (n / 1000000)
  obtain ⟨c, rest, hcons⟩ : ∃ c rest, natToDigits (n / 1000000) = c :: rest := by
    match h : natToDigits (n / 1000000) with
    | [] => exact absurd h (natToDigits_ne_nil _)
    | c :: rest => exact ⟨c, rest, rfl⟩
  have hc : isDigit10 c = true := hdA c (by rw [hcons]; simp)
  have hdot : isDigit10 '.' = false := by decide
  have hfix : toFixed6 q = ⟨natToDigits (n / 1000000) ++ '.' :: pad6 (n % 1000000)⟩ := by
    rw [toFixed6]
  rw [parseFloatStr, hfix]
  show parseFloatChars (natToDigits (n / 1000000) ++ '.' :: pad6 (n % 1000000)) = _
  rw [parseFloatChars]
  have hdrop : (natToDigits (n / 1000000) ++ '.' :: pad6 (n % 1000000)).dropWhile
      jsWhitespace = natToDigits (n / 1000000) ++ '.' :: pad6 (n % 1000000) := by
    rw [hcons, List.cons_append]
    exact dropWhile_head_not (not_ws_of_digit hc)
  rw [hdrop]
  have hsign : splitSign (natToDigits (n / 1000000) ++ '.' :: pad6 (n % 1000000))
      = (false, natToDigits (n / 1000000) ++ '.' :: pad6 (n % 1000000)) := by
    rw [hcons, List.cons_append]
    exact splitSign_no_sign (digit_ne_sign hc).1 (digit_ne_sign hc).2
  rw [hsign]
  simp only
  rw [takeWhile_middle _ hdA hdot, dropWhile_middle _ hdA hdot]
  simp only
  rw [takeWhile_all (pad6_all_digit _)]
  have hne : (natToDigits (n / 1000000)).isEmpty = false :=
    List.isEmpty_eq_false_iff_exists_mem.mpr ⟨c, by rw [hcons]; simp⟩
  rw [hne]
  simp only [Bool.false_and, Bool.false_eq_true, if_false]
  congr 1
  rw [parseDigits_natToDigits, parseDigits_pad6, pad6_length hmod]
  have hdm : 1000000 * (n / 1000000) + n % 1000000 = n := Nat.div_add_mod n 1000000
  have hcast : (1000000 : ℚ) * ((n / 1000000 : ℕ) : ℚ) + ((n % 1000000 : ℕ) : ℚ)
      = (n : ℚ) := by exact_mod_cast hdm
  have h10 : ((10 : ℚ) ^ 6) = 1000000 := by norm_num
  rw [h10]
  have h1e6 : (1000000 : ℚ) ≠ 0 := by norm_num
  field_simp
  linarith [hcast, hnq]

/-! Claim theorems.  The rational arithmetic operations of Batteries are
irreducible by default, which blocks decide and rfl on concrete runs of
the codec; they are made semireducible for the rest of the file. -/

attribute [local semireducible] Rat.mul Rat.add Rat.sub Rat.inv

/-- C1: the spec asserts the decode entry points return a structured result
for every input and never raise; the code contradicts its own documented
contract (its JSDoc promises a returned validity object).  Witness input: a
traceparent that splits into fewer than four dash-separated fields under
version 01, whose present fields are all individually valid.  The
destructured parentId is undefined and the source calls .match on it,
raising a TypeError that propagates out of acceptTraceContextPayload. -/
theorem c1_decode_raises_on_short_unknown_version_traceparent :
    validateAndParseTraceParentHeader "01-4bf92f3577b34da6a3ce929d0e0e4736"
      = .error jsTypeError ∧
    acceptTraceContextPayload "xyz" initialCodecState
      "01-4bf92f3577b34da6a3ce929d0e0e4736" "" 0 = .error jsTypeError := by
  constructor <;> rfl

/-- C3: decoding the spec example headers under trusted account key xyz
yields exactly the documented intrinsics: traceId
4bf92f3577b34da6a3ce929d0e0e4736, parentSpanId 00f067aa0ba902b7,
parentType App, accountId 33, appId 2827902, transactionId
e8b91a159289ff74, sampled true, priority 1.123456 and
acceptedTracestate true. -/
theorem c3_example_end_to_end :
    acceptTraceContextPayload "xyz" initialCodecState
      "00-4bf92f3577b34da6a3ce929d0e0e4736-00f067aa0ba902b7-01"
      "xyz@nr=0-0-33-2827902-7d3efb1b173fecfa-e8b91a159289ff74-1-1.123456-1569367663277"
      1569367663277
    = .ok
      ({ acceptedTraceparent := true, acceptedTracestate := true,
         acceptedNRTracestate := false,
         traceId := some "4bf92f3577b34da6a3ce929d0e0e4736",
         parentSpanId := some "00f067aa0ba902b7",
         parentType := some "App", accountId := some "33",
         appId := some "2827902", transactionId := some "e8b91a159289ff74",
         sampled := some true, priority := some (.num (1123456 / 1000000)),
         transportDuration := some (.num 0) },
       { tracingVendors := some "", trustedParentId := some "7d3efb1b173fecfa",
         traceStateRaw := some "" }) := by
  rfl

/-! Control-flow lemmas for the orchestrator and the tracestate parser. -/

theorem accept_unfold_valid (key : String) (st : CodecState) (tp ts : String)
    (now : ℚ) (pinfo : TraceParentInfo)
    (htp : tp ≠ "") (hp : validateAndParseTraceParentHeader tp = .ok pinfo)
    (hv : pinfo.entryValid = true) (hts : ts ≠ "") :
    acceptTraceContextPayload key st tp ts now =
      (let parsedState := validateAndParseTraceStateHeader key ts
       if parsedState.traceStateValid ≠ some true then
         .ok (acceptedParentData pinfo, st)
       else if parsedState.entryValid = some true then
         match parsedState.intrinsics with
         | none => .error jsTypeError
         | some intr =>
           .ok ({ acceptedParentData pinfo with
                    acceptedTracestate := true,
                    parentType := intr.parentType,
                    accountId := intr.accountId,
                    appId := intr.appId,
                    transactionId := intr.transactionId,
                    sampled := some intr.sampled,
                    priority := intr.priority,
                    transportDuration := some (transportDurationOf now intr.timestamp) },
                { storedStateAfter st parsedState with
                    trustedParentId := intr.spanId,
                    traceStateRaw := parsedState.newTraceState })
       else .ok (acceptedParentData pinfo, storedStateAfter st parsedState)) := by
  rw [acceptTraceContextPayload, if_neg htp, hp]
  simp only [hv, if_true, if_neg hts, acceptedParentData, storedStateAfter]

theorem accept_of_state_invalid {key : String} {st : CodecState} {tp ts : String}
    {now : ℚ} {pinfo : TraceParentInfo}
    (htp : tp ≠ "") (hp : validateAndParseTraceParentHeader tp = .ok pinfo)
    (hv : pinfo.entryValid = true) (hts : ts ≠ "")
    (hsv : (validateAndParseTraceStateHeader key ts).traceStateValid ≠ some true) :
    acceptTraceContextPayload key st tp ts now = .ok (acceptedParentData pinfo, st) := by
  rw [accept_unfold_valid key st tp ts now pinfo htp hp hv hts]
  simp only [hsv, if_true, ne_eq, not_false_eq_true]

theorem accept_of_entry_not_valid {key : String} {st : CodecState} {tp ts : String}
    {now : ℚ} {pinfo : TraceParentInfo}
    (htp : tp ≠ "") (hp : validateAndParseTraceParentHeader tp = .ok pinfo)
    (hv : pinfo.entryValid = true) (hts : ts ≠ "")
    (hsv : (validateAndParseTraceStateHeader key ts).traceStateValid = some true)
    (hev : (validateAndParseTraceStateHeader key ts).entryValid ≠ some true) :
    acceptTraceContextPayload key st tp ts now =
      .ok (acceptedParentData pinfo,
           storedStateAfter st (validateAndParseTraceStateHeader key ts)) := by
  rw [accept_unfold_valid key st tp ts now pinfo htp hp hv hts]
  simp only [hsv, hev, ne_eq, not_true_eq_false, if_false, if_neg hev]

theorem accept_of_entry_valid {key : String} {st : CodecState} {tp ts : String}
    {now : ℚ} {pinfo : TraceParentInfo} {intr : ValidatedIntrinsics}
    (htp : tp ≠ "") (hp : validateAndParseTraceParentHeader tp = .ok pinfo)
    (hv : pinfo.entryValid = true) (hts : ts ≠ "")
    (hsv : (validateAndParseTraceStateHeader key ts).traceStateValid = some true)
    (hev : (validateAndParseTraceStateHeader key ts).entryValid = some true)
    (hintr : (validateAndParseTraceStateHeader key ts).intrinsics = some intr) :
    acceptTraceContextPayload key st tp ts now =
      .ok ({ acceptedParentData pinfo with
               acceptedTracestate := true,
               parentType := intr.parentType,
               accountId := intr.accountId,
               appId := intr.appId,
               transactionId := intr.transactionId,
               sampled := some intr.sampled,
               priority := intr.priority,
               transportDuration := some (transportDurationOf now intr.timestamp) },
           { storedStateAfter st (validateAndParseTraceStateHeader key ts) with
               trustedParentId := intr.spanId,
               traceStateRaw :=
                 (validateAndParseTraceStateHeader key ts).newTraceState }) := by
  rw [accept_unfold_valid key st tp ts now pinfo htp hp hv hts]
  simp only [hsv, hev, hintr, ne_eq, not_true_eq_false, if_false, if_true]

theorem vendors_map_of_wellformed {ts : String}
    (hvalid : ∀ lm ∈ jsSplit ts ',', (jsSplit lm '=').length = 2) :
    ((jsSplit ts ',').map (fun lm =>
        let split := jsSplit lm '='
        if split.length ≠ 2 then none else some split.headI))
      = ((jsSplit ts ',').map (fun lm => (jsSplit lm '=').headI)).map some := by
  rw [List.map_map]
  apply List.map_congr_left
  intro lm hm
  simp [hvalid lm hm]

theorem any_isNone_map_some (keys : List String) :
    ((keys.map some).any (·.isNone)) = false := by
  induction keys with
  | nil => rfl
  | cons a l ih => simp [ih]

theorem findIdx?_map_some (keys : List String) (k : String) :
    (keys.map some).findIdx? (· = some k) = keys.findIdx? (· = k) := by
  induction keys with
  | nil => rfl
  | cons a l ih => simp [List.findIdx?_cons, ih]

theorem eraseIdx_map_some (keys : List String) (i : ℕ) :
    ((keys.map some).eraseIdx i) = (keys.eraseIdx i).map some := by
  induction keys generalizing i with
  | nil => simp
  | cons a t ih =>
    cases i with
    | zero => simp [List.eraseIdx]
    | succ j => simp [List.eraseIdx, ih]

theorem parseTraceState_malformed {key ts : String}
    (h : ∃ lm ∈ jsSplit ts ',', (jsSplit lm '=').length ≠ 2) :
    (validateAndParseTraceStateHeader key ts).traceStateValid = some false := by
  obtain ⟨lm, hm, hlen⟩ := h
  have hany : ((jsSplit ts ',').map (fun lm =>
      let split := jsSplit lm '='
      if split.length ≠ 2 then none else some split.headI)).any (·.isNone) = true := by
    rw [List.any_eq_true]
    exact ⟨none, List.mem_map.mpr ⟨lm, hm, by simp [hlen]⟩, rfl⟩
  rw [validateAndParseTraceStateHeader]
  simp only [hany, if_true]

theorem parseTraceState_found {key ts : String} {i : ℕ}
    (hvalid : ∀ lm ∈ jsSplit ts ',', (jsSplit lm '=').length = 2)
    (hidx : ((jsSplit ts ',').map (fun lm => (jsSplit lm '=').headI)).findIdx?
        (· = key ++ "@nr") = some i) :
    validateAndParseTraceStateHeader key ts =
      (let listMembers := jsSplit ts ','
       let keys := listMembers.map (fun lm => (jsSplit lm '=').headI)
       let validation := validateAndParseIntrinsics
         ((jsSplit (listMembers.getD i "") '=').getD 1 "")
       { entryFound := true,
         entryValid := some validation.entryValid,
         entryInvalidReason := none,
         traceStateValid := some true,
         intrinsics := if validation.entryValid then some validation else none,
         newTraceState := some (jsJoin ',' (listMembers.eraseIdx i)),
         vendors := (keys.eraseIdx i).map some }) := by
  rw [validateAndParseTraceStateHeader]
  simp only [vendors_map_of_wellformed hvalid, any_isNone_map_some,
    Bool.false_eq_true, if_false, findIdx?_map_some, hidx, eraseIdx_map_some]
  cases hev : (validateAndParseIntrinsics
      ((jsSplit ((jsSplit ts ',').getD i "") '=').getD 1 "")).entryValid <;>
    simp [hev]

theorem parseTraceState_not_found {key ts : String}
    (hvalid : ∀ lm ∈ jsSplit ts ',', (jsSplit lm '=').length = 2)
    (hidx : ((jsSplit ts ',').map (fun lm => (jsSplit lm '=').headI)).findIdx?
        (· = key ++ "@nr") = none) :
    validateAndParseTraceStateHeader key ts =
      { entryFound := false, entryValid := none, entryInvalidReason := none,
        traceStateValid := some true, intrinsics := none,
        newTraceState := some (jsJoin ',' (jsSplit ts ',')),
        vendors := ((jsSplit ts ',').map (fun lm => (jsSplit lm '=').headI)).map some } := by
  rw [validateAndParseTraceStateHeader]
  simp only [vendors_map_of_wellformed hvalid, any_isNone_map_some,
    Bool.false_eq_true, if_false, findIdx?_map_some, hidx]

/-- C9 counterexample: the claim says every failing field of the policy
table records its name as the invalid reason, parentType included.  On a
vendor value whose parentType slot is empty (and every other field fine),
the coerced parentType is NaN, the isNull table rule does not fire, the
entry is invalidated only by the PARENT_TYPES lookup after the loop, and
no reason at all is recorded. -/
theorem c9_counterexample_parentType_fails_without_reason :
    (validateAndParseIntrinsics "0--33-2827902-----1569367663277").entryValid = false ∧
    (validateAndParseIntrinsics "0--33-2827902-----1569367663277").entryInvalidReason
      = none := by
  constructor <;> rfl

/-- C9 amended: all seven table rules are evaluated and a later failure
overwrites the recorded reason, so the reason is the last-failing field in
table order; but the parentType rule (isNull on a parseInt result) can
never fire, so parentType failures come only from the PARENT_TYPES index
lookup, set entryValid to false, and record no reason. -/
theorem c9_reason_is_last_failed_check (v : String) :
    (validateAndParseIntrinsics v).entryInvalidReason
        = ((([("version", isNaNJNum (parseIntrinsics v).version),
              ("parentType", isNullNum (parseIntrinsics v).parentType),
              ("accountId", (parseIntrinsics v).accountId.isNone),
              ("appId", (parseIntrinsics v).appId.isNone),
              ("sampled", isNaNOpt (parseIntrinsics v).sampled),
              ("priority", isNaNOpt (parseIntrinsics v).priority),
              ("timestamp", isNaNJNum (parseIntrinsics v).timestamp)]).filter
                (fun p => p.2)).getLast?).map (fun p => invalidReasonFor p.1) ∧
    (validateAndParseIntrinsics v).entryValid
        = (([("version", isNaNJNum (parseIntrinsics v).version),
             ("parentType", isNullNum (parseIntrinsics v).parentType),
             ("accountId", (parseIntrinsics v).accountId.isNone),
             ("appId", (parseIntrinsics v).appId.isNone),
             ("sampled", isNaNOpt (parseIntrinsics v).sampled),
             ("priority", isNaNOpt (parseIntrinsics v).priority),
             ("timestamp", isNaNJNum (parseIntrinsics v).timestamp)]).all
               (fun p => !p.2)
           && !(jsArrayGet PARENT_TYPES (parseIntrinsics v).parentType).isNone) ∧
    isNullNum (parseIntrinsics v).parentType = false := by
  refine ⟨?_, ?_, rfl⟩ <;>
  · simp only [validateAndParseIntrinsics, isNullNum]
    cases h1 : isNaNJNum (parseIntrinsics v).version <;>
    cases h2 : (parseIntrinsics v).accountId.isNone <;>
    cases h3 : (parseIntrinsics v).appId.isNone <;>
    cases h4 : isNaNOpt (parseIntrinsics v).sampled <;>
    cases h5 : isNaNOpt (parseIntrinsics v).priority <;>
    cases h6 : isNaNJNum (parseIntrinsics v).timestamp <;>
    cases h7 : (jsArrayGet PARENT_TYPES (parseIntrinsics v).parentType).isNone <;>
    simp [h1, h2, h3, h4, h5, h6, h7, isNullNum]

/-- C8 counterexample: the claim says the vendors list (and the joined value
stored on the codec) is all keys seen including the matched trustedKey
at-nr key; the parser splices the matched key out before the list is
stored, so on the example tracestate the vendors are other and another
only. -/
theorem c8_counterexample_vendors_lack_matched_key :
    (validateAndParseTraceStateHeader "xyz"
      "other=1,xyz@nr=0-0-33-2827902-7d3efb1b173fecfa-e8b91a159289ff74-1-1.123456-1569367663277,another=2").vendors
      = [some "other", some "another"] ∧
    some "xyz@nr" ∉ (validateAndParseTraceStateHeader "xyz"
      "other=1,xyz@nr=0-0-33-2827902-7d3efb1b173fecfa-e8b91a159289ff74-1-1.123456-1569367663277,another=2").vendors := by
  have h : (validateAndParseTraceStateHeader "xyz"
      "other=1,xyz@nr=0-0-33-2827902-7d3efb1b173fecfa-e8b91a159289ff74-1-1.123456-1569367663277,another=2").vendors
      = [some "other", some "another"] := by rfl
  exact ⟨h, by rw [h]; decide⟩

/-- C8 amended: for a syntactically valid tracestate whose key list has its
first trustedKey at-nr match at index i, the vendors the parser returns
are the member keys in order with that one match removed, and the joined
vendor list acceptTraceContextPayload stores on the codec instance is the
comma-join of exactly those remaining keys. -/
theorem c8_vendors_exclude_first_matched_key (key ts : String) (i : ℕ)
    (st : CodecState) (tp : String) (now : ℚ) (pinfo : TraceParentInfo)
    (hvalid : ∀ lm ∈ jsSplit ts ',', (jsSplit lm '=').length = 2)
    (hidx : ((jsSplit ts ',').map (fun lm => (jsSplit lm '=').headI)).findIdx?
        (· = key ++ "@nr") = some i)
    (htp : tp ≠ "") (hp : validateAndParseTraceParentHeader tp = .ok pinfo)
    (hv : pinfo.entryValid = true) (hts : ts ≠ "") :
    (validateAndParseTraceStateHeader key ts).vendors
        = (((jsSplit ts ',').map (fun lm => (jsSplit lm '=').headI)).eraseIdx i).map
            some ∧
    ∃ d st2, acceptTraceContextPayload key st tp ts now = .ok (d, st2) ∧
      st2.tracingVendors = some (jsJoin ','
        (((jsSplit ts ',').map (fun lm => (jsSplit lm '=').headI)).eraseIdx i)) := by
  have hps := @parseTraceState_found key ts i hvalid hidx
  have hvend : (validateAndParseTraceStateHeader key ts).vendors
      = (((jsSplit ts ',').map (fun lm => (jsSplit lm '=').headI)).eraseIdx i).map
          some := by
    rw [hps]
  refine ⟨hvend, ?_⟩
  have hsv : (validateAndParseTraceStateHeader key ts).traceStateValid = some true := by
    rw [hps]
  have hjoin : (validateAndParseTraceStateHeader key ts).vendors.map
      (fun v => v.getD "")
      = ((jsSplit ts ',').map (fun lm => (jsSplit lm '=').headI)).eraseIdx i := by
    rw [hvend, List.map_map]
    simp [Function.comp_def]
  by_cases hev : (validateAndParseTraceStateHeader key ts).entryValid = some true
  · obtain ⟨intr, hintr⟩ :
        ∃ intr, (validateAndParseTraceStateHeader key ts).intrinsics = some intr := by
      rw [hps] at hev ⊢
      simp only at hev ⊢
      rw [Option.some_inj] at hev
      rw [if_pos hev]
      exact ⟨_, rfl⟩
    rw [accept_of_entry_valid htp hp hv hts hsv hev hintr]
    refine ⟨_, _, rfl, ?_⟩
    simp only [storedStateAfter]
    rw [hjoin]
  · rw [accept_of_entry_not_valid htp hp hv hts hsv hev]
    refine ⟨_, _, rfl, ?_⟩
    simp only [storedStateAfter]
    rw [hjoin]

theorem accept_of_parent_invalid {key : String} {st : CodecState} {tp ts : String}
    {now : ℚ} {pinfo : TraceParentInfo} (htp : tp ≠ "")
    (hp : validateAndParseTraceParentHeader tp = .ok pinfo)
    (hv : pinfo.entryValid = false) :
    acceptTraceContextPayload key st tp ts now = .ok (emptyTraceContextData, st) := by
  rw [acceptTraceContextPayload, if_neg htp, hp]
  simp [hv]

/-- C5: a single list member that does not split into exactly two parts on
the equals sign invalidates the whole tracestate (no partial acceptance),
acceptTraceContextPayload then leaves acceptedTracestate false and keeps
the already-accepted traceparent fields (acceptedTraceparent, traceId,
parentSpanId) exactly as the traceparent parser produced them. -/
theorem c5_malformed_member_invalidates_whole_tracestate
    (key : String) (st : CodecState) (tp ts : String) (now : ℚ)
    (pinfo : TraceParentInfo)
    (hbad : ∃ lm ∈ jsSplit ts ',', (jsSplit lm '=').length ≠ 2)
    (htp : tp ≠ "") (hp : validateAndParseTraceParentHeader tp = .ok pinfo)
    (hv : pinfo.entryValid = true) (hts : ts ≠ "") :
    (validateAndParseTraceStateHeader key ts).traceStateValid = some false ∧
    acceptTraceContextPayload key st tp ts now
      = .ok (acceptedParentData pinfo, st) ∧
    (acceptedParentData pinfo).acceptedTracestate = false ∧
    (acceptedParentData pinfo).acceptedTraceparent = true ∧
    (acceptedParentData pinfo).traceId = pinfo.traceId ∧
    (acceptedParentData pinfo).parentSpanId = pinfo.parentId := by
  have hmal := @parseTraceState_malformed key ts hbad
  refine ⟨hmal, ?_, rfl, rfl, rfl, rfl⟩
  exact accept_of_state_invalid htp hp hv hts (by rw [hmal]; simp)

/-- C10: an absent (empty-string) sampled slot stays null through the
conversion table, passes validation, and the Boolean normalization turns
it into the boolean false; acceptTraceContextPayload copies exactly that
boolean (wrapped in some, never null) into the result of an accepted
entry. -/
theorem c10_absent_sampled_becomes_false :
    (∀ v : String, (extractTraceStateIntrinsics v).sampled = none →
      (validateAndParseIntrinsics v).sampled = false) ∧
    (∀ (key : String) (st : CodecState) (tp ts : String) (now : ℚ)
       (pinfo : TraceParentInfo) (intr : ValidatedIntrinsics),
      tp ≠ "" → validateAndParseTraceParentHeader tp = .ok pinfo →
      pinfo.entryValid = true → ts ≠ "" →
      (validateAndParseTraceStateHeader key ts).traceStateValid = some true →
      (validateAndParseTraceStateHeader key ts).entryValid = some true →
      (validateAndParseTraceStateHeader key ts).intrinsics = some intr →
      ∃ d st2, acceptTraceContextPayload key st tp ts now = .ok (d, st2) ∧
        d.acceptedTracestate = true ∧ d.sampled = some intr.sampled) := by
  constructor
  · intro v hnone
    have hs : (parseIntrinsics v).sampled = none := by
      rw [parseIntrinsics]
      simp [hnone]
    simp [validateAndParseIntrinsics, hs, jsTruthySampled]
  · intro key st tp ts now pinfo intr htp hp hv hts hsv hev hintr
    rw [accept_of_entry_valid htp hp hv hts hsv hev hintr]
    exact ⟨_, _, rfl, rfl, rfl⟩

/-- C4: a traceparent whose version field is ff, or whose present traceId
field is not 32 lowercase hex digits or is all zero, or whose present
parentId field is not 16 lowercase hex digits or is all zero, always
parses to the all-null invalid struct, and acceptTraceContextPayload
reports acceptedTraceparent false for it whatever the tracestate is. -/
theorem c4_invalid_fields_reject_traceparent
    (s key ts : String) (st : CodecState) (now : ℚ)
    (h : (jsSplit s '-').headI = "ff" ∨
         (∃ t, (jsSplit s '-')[1]? = some t ∧ traceIdValid t = false) ∨
         (∃ p, (jsSplit s '-')[2]? = some p ∧ parentIdValid p = false)) :
    validateAndParseTraceParentHeader s = .ok emptyTraceParentInfo ∧
    ∃ d st2, acceptTraceContextPayload key st s ts now = .ok (d, st2) ∧
      d.acceptedTraceparent = false := by
  have hne : s ≠ "" := by
    intro he
    subst he
    rcases h with h | ⟨t, ht, _⟩ | ⟨p, hpp, _⟩
    · exact absurd h (by decide)
    · rw [show (jsSplit "" '-')[1]? = none from rfl] at ht
      exact Option.noConfusion ht
    · rw [show (jsSplit "" '-')[2]? = none from rfl] at hpp
      exact Option.noConfusion hpp
  have hparse : validateAndParseTraceParentHeader s = .ok emptyTraceParentInfo := by
    rw [validateAndParseTraceParentHeader, if_neg hne]
    by_cases h00 : (jsSplit s '-').headI = W3C_TRACEPARENT_VERSION ∧
        (jsSplit s '-').length ≠ 4
    · rw [if_pos h00]
    · rw [if_neg h00]
      by_cases hver : versionValid (jsSplit s '-').headI = true
      · rcases h with hff | ⟨t, ht, hbad⟩ | ⟨p, hpp, hbad⟩
        · rw [hff] at hver
          exact absurd hver (by decide)
        · rw [ht]
          simp only [hver, if_true, hbad, Bool.false_eq_true, if_false]
        · have hlen : 2 < (jsSplit s '-').length := by
            by_contra hlen
            rw [List.getElem?_eq_none (by omega)] at hpp
            exact Option.noConfusion hpp
          obtain ⟨t, ht⟩ : ∃ t, (jsSplit s '-')[1]? = some t :=
            ⟨_, List.getElem?_eq_getElem (by omega)⟩
          rw [ht]
          simp only [hver, if_true]
          by_cases htv : traceIdValid t = true
          · rw [hpp]
            simp only [htv, if_true, hbad, Bool.false_eq_true, if_false]
          · simp only [Bool.not_eq_true] at htv
            simp only [htv, Bool.false_eq_true, if_false]
      · simp only [Bool.not_eq_true] at hver
        simp only [hver, Bool.false_eq_true, if_false]
  refine ⟨hparse, emptyTraceContextData, st, ?_, rfl⟩
  exact accept_of_parent_invalid hne hparse rfl

/-- C6: when the first trustedKey at-nr match sits at index i of the member
list, newTraceState is the comma-rejoin of the remaining members in their
original order, that value is what acceptTraceContextPayload stores on the
codec instance, and on the concrete example
other=1,xyz@nr=(valid value),another=2 the stored pass-through is exactly
other=1,another=2. -/
theorem c6_passthrough_excludes_first_matched_member
    (key ts : String) (i : ℕ) (st : CodecState) (tp : String) (now : ℚ)
    (pinfo : TraceParentInfo)
    (hvalid : ∀ lm ∈ jsSplit ts ',', (jsSplit lm '=').length = 2)
    (hidx : ((jsSplit ts ',').map (fun lm => (jsSplit lm '=').headI)).findIdx?
        (· = key ++ "@nr") = some i)
    (htp : tp ≠ "") (hp : validateAndParseTraceParentHeader tp = .ok pinfo)
    (hv : pinfo.entryValid = true) (hts : ts ≠ "") :
    (validateAndParseTraceStateHeader key ts).newTraceState
        = some (jsJoin ',' ((jsSplit ts ',').eraseIdx i)) ∧
    (∃ d st2, acceptTraceContextPayload key st tp ts now = .ok (d, st2) ∧
      st2.traceStateRaw = some (jsJoin ',' ((jsSplit ts ',').eraseIdx i))) ∧
    (validateAndParseTraceStateHeader "xyz"
        "other=1,xyz@nr=0-0-33-2827902-7d3efb1b173fecfa-e8b91a159289ff74-1-1.123456-1569367663277,another=2").newTraceState
      = some "other=1,another=2" ∧
    ∃ d2 st3, acceptTraceContextPayload "xyz" initialCodecState
        "00-4bf92f3577b34da6a3ce929d0e0e4736-00f067aa0ba902b7-01"
        "other=1,xyz@nr=0-0-33-2827902-7d3efb1b173fecfa-e8b91a159289ff74-1-1.123456-1569367663277,another=2"
        0 = .ok (d2, st3) ∧
      st3.traceStateRaw = some "other=1,another=2" := by
  have hps := @parseTraceState_found key ts i hvalid hidx
  have hnew : (validateAndParseTraceStateHeader key ts).newTraceState
      = some (jsJoin ',' ((jsSplit ts ',').eraseIdx i)) := by
    rw [hps]
  refine ⟨hnew, ?_, by rfl, ?_⟩
  · have hsv : (validateAndParseTraceStateHeader key ts).traceStateValid
        = some true := by rw [hps]
    by_cases hev : (validateAndParseTraceStateHeader key ts).entryValid = some true
    · obtain ⟨intr, hintr⟩ :
          ∃ intr, (validateAndParseTraceStateHeader key ts).intrinsics = some intr := by
        rw [hps] at hev ⊢
        simp only at hev ⊢
        rw [Option.some_inj] at hev
        rw [if_pos hev]
        exact ⟨_, rfl⟩
      rw [accept_of_entry_valid htp hp hv hts hsv hev hintr]
      exact ⟨_, _, rfl, hnew⟩
    · rw [accept_of_entry_not_valid htp hp hv hts hsv hev]
      refine ⟨_, _, rfl, ?_⟩
      simp only [storedStateAfter]
      exact hnew
  · exact ⟨_, _, rfl, rfl⟩

theorem entryValid_false_of_timestamp_nan {v : String}
    (h : isNaNJNum (parseIntrinsics v).timestamp = true) :
    (validateAndParseIntrinsics v).entryValid = false := by
  simp only [validateAndParseIntrinsics, h, if_true]
  cases hpt : (jsArrayGet PARENT_TYPES (parseIntrinsics v).parentType).isNone <;>
    simp [hpt]

/-- C7: a present but non-numeric timestamp slot in the vendor entry makes
the intrinsics invalid, so acceptTraceContextPayload reports
acceptedTracestate false, yet the pass-through value it stores on the
codec instance is the member list with the vendor entry already removed. -/
theorem c7_nonnumeric_timestamp_rejected_but_stripped
    (key ts tstr : String) (i : ℕ) (st : CodecState) (tp : String) (now : ℚ)
    (pinfo : TraceParentInfo)
    (hvalid : ∀ lm ∈ jsSplit ts ',', (jsSplit lm '=').length = 2)
    (hidx : ((jsSplit ts ',').map (fun lm => (jsSplit lm '=').headI)).findIdx?
        (· = key ++ "@nr") = some i)
    (hraw : (extractTraceStateIntrinsics
        ((jsSplit ((jsSplit ts ',').getD i "") '=').getD 1 "")).timestamp = some tstr)
    (hnan : parseIntStr tstr = .nan)
    (htp : tp ≠ "") (hp : validateAndParseTraceParentHeader tp = .ok pinfo)
    (hv : pinfo.entryValid = true) (hts : ts ≠ "") :
    ∃ d st2, acceptTraceContextPayload key st tp ts now = .ok (d, st2) ∧
      d.acceptedTracestate = false ∧
      st2.traceStateRaw = some (jsJoin ',' ((jsSplit ts ',').eraseIdx i)) := by
  have hps := @parseTraceState_found key ts i hvalid hidx
  have htsnan : isNaNJNum (parseIntrinsics
      ((jsSplit ((jsSplit ts ',').getD i "") '=').getD 1 "")).timestamp = true := by
    have h1 : (parseIntrinsics
        ((jsSplit ((jsSplit ts ',').getD i "") '=').getD 1 "")).timestamp
        = parseIntJS (extractTraceStateIntrinsics
            ((jsSplit ((jsSplit ts ',').getD i "") '=').getD 1 "")).timestamp := rfl
    rw [h1, hraw, show parseIntJS (some tstr) = parseIntStr tstr from rfl, hnan]
    rfl
  have hevf := entryValid_false_of_timestamp_nan htsnan
  have hsv : (validateAndParseTraceStateHeader key ts).traceStateValid
      = some true := by rw [hps]
  have hev : (validateAndParseTraceStateHeader key ts).entryValid = some false := by
    rw [hps]
    simp only
    rw [hevf]
  rw [accept_of_entry_not_valid htp hp hv hts hsv (by rw [hev]; simp)]
  refine ⟨_, _, rfl, rfl, ?_⟩
  simp only [storedStateAfter]
  rw [hps]

/-! Supporting lemmas for the round-trip property. -/

theorem digit_ne_delims {c : Char} (h : isDigit10 c = true) :
    c ≠ '-' ∧ c ≠ ',' ∧ c ≠ '=' := by
  refine ⟨?_, ?_, ?_⟩ <;> (intro he; subst he; exact absurd h (by decide))

theorem hex_ne_delims {c : Char} (h : isHexLower c = true) :
    c ≠ '-' ∧ c ≠ ',' ∧ c ≠ '=' := by
  refine ⟨?_, ?_, ?_⟩ <;> (intro he; subst he; exact absurd h (by decide))

theorem padHex_facts {s : String} {n : ℕ} (hlen : s.data.length ≤ n)
    (hhex : ∀ c ∈ s.data, isHexLower c = true) (hnz : ∃ c ∈ s.data, c ≠ '0') :
    (padStart s n '0').data.length = n ∧
    (∀ c ∈ (padStart s n '0').data, isHexLower c = true) ∧
    ((padStart s n '0').data.all (· = '0') = false) := by
  have hdata : (padStart s n '0').data
      = List.replicate (n - s.data.length) '0' ++ s.data := rfl
  refine ⟨?_, ?_, ?_⟩
  · rw [hdata]
    simp only [List.length_append, List.length_replicate]
    omega
  · rw [hdata]
    intro c hc
    rcases List.mem_append.mp hc with hc | hc
    · rw [List.eq_of_mem_replicate hc]
      decide
    · exact hhex c hc
  · rw [hdata]
    obtain ⟨c, hc, hcne⟩ := hnz
    by_contra hall
    rw [Bool.not_eq_false, List.all_eq_true] at hall
    exact hcne (by simpa using hall c (List.mem_append_right _ hc))

theorem traceIdValid_padStart {s : String} (hlen : s.data.length ≤ 32)
    (hhex : ∀ c ∈ s.data, isHexLower c = true) (hnz : ∃ c ∈ s.data, c ≠ '0') :
    traceIdValid (padStart s 32 '0') = true := by
  obtain ⟨h1, h2, h3⟩ := padHex_facts hlen hhex hnz
  simp [traceIdValid, h1, h3, List.all_eq_true.mpr h2]

theorem parentIdValid_padStart {s : String} (hlen : s.data.length ≤ 16)
    (hhex : ∀ c ∈ s.data, isHexLower c = true) (hnz : ∃ c ∈ s.data, c ≠ '0') :
    parentIdValid (padStart s 16 '0') = true := by
  obtain ⟨h1, h2, h3⟩ := padHex_facts hlen hhex hnz
  simp [parentIdValid, h1, h3, List.all_eq_true.mpr h2]

theorem createFlagsHex_eq (b : Bool) : createFlagsHex b = if b then "01" else "00" := by
  cases b <;> simp [createFlagsHex, natToHexDigits, padStart] <;> decide

theorem flagsValid_createFlagsHex (b : Bool) : flagsValid (createFlagsHex b) = true := by
  rw [createFlagsHex_eq]
  cases b <;> decide

theorem natToDigits_no_delims (n : ℕ) :
    ∀ c ∈ natToDigits n, c ≠ '-' ∧ c ≠ ',' ∧ c ≠ '=' :=
  fun c hc => digit_ne_delims (natToDigits_all_digit n c hc)

theorem toFixed6_data (q : ℚ) :
    (toFixed6 q).data
      = natToDigits ((⌊q * 1000000 + 1 / 2⌋).toNat / 1000000) ++
        '.' :: pad6 ((⌊q * 1000000 + 1 / 2⌋).toNat % 1000000) := rfl

theorem toFixed6_no_delims (q : ℚ) :
    ∀ c ∈ (toFixed6 q).data, c ≠ '-' ∧ c ≠ ',' ∧ c ≠ '=' := by
  intro c hc
  rw [toFixed6_data] at hc
  rcases List.mem_append.mp hc with hc | hc
  · exact digit_ne_delims (natToDigits_all_digit _ c hc)
  · rcases List.mem_cons.mp hc with hc | hc
    · subst hc
      refine ⟨by decide, by decide, by decide⟩
    · exact digit_ne_delims (pad6_all_digit _ c hc)

theorem toFixed6_ne_empty (q : ℚ) : toFixed6 q ≠ "" := by
  intro h
  have := congrArg String.data h
  rw [toFixed6_data] at this
  rcases natToDigits ((⌊q * 1000000 + 1 / 2⌋).toNat / 1000000) with _ | ⟨a, l⟩ <;>
    simp at this

theorem ne_empty_of_data_ne_nil {s : String} (h : s.data ≠ []) : s ≠ "" := by
  intro he
  subst he
  exact h rfl

theorem ne_empty_of_mem {s : String} {c : Char} (h : c ∈ s.data) : s ≠ "" :=
  ne_empty_of_data_ne_nil (by intro he; rw [he] at h; exact absurd h (List.not_mem_nil c))

theorem string_eq_of_data {a b : String} (h : a.data = b.data) : a = b := by
  cases a
  cases b
  exact congrArg String.mk h

theorem splitChars_four {a b c d : List Char} (sep : Char)
    (ha : sep ∉ a) (hb : sep ∉ b) (hc : sep ∉ c) (hd : sep ∉ d) :
    splitChars sep (a ++ sep :: (b ++ sep :: (c ++ sep :: d))) = [a, b, c, d] := by
  rw [splitChars_append ha, splitChars_append hb, splitChars_append hc,
    splitChars_eq_single hd]

theorem splitChars_nine {c0 c1 c2 c3 c4 c5 c6 c7 c8 : List Char} (sep : Char)
    (h0 : sep ∉ c0) (h1 : sep ∉ c1) (h2 : sep ∉ c2) (h3 : sep ∉ c3) (h4 : sep ∉ c4)
    (h5 : sep ∉ c5) (h6 : sep ∉ c6) (h7 : sep ∉ c7) (h8 : sep ∉ c8) :
    splitChars sep (c0 ++ sep :: (c1 ++ sep :: (c2 ++ sep :: (c3 ++ sep ::
      (c4 ++ sep :: (c5 ++ sep :: (c6 ++ sep :: (c7 ++ sep :: c8))))))))
      = [c0, c1, c2, c3, c4, c5, c6, c7, c8] := by
  rw [splitChars_append h0, splitChars_append h1, splitChars_append h2,
    splitChars_append h3, splitChars_append h4, splitChars_append h5,
    splitChars_append h6, splitChars_append h7, splitChars_eq_single h8]

theorem traceparentHeader_parses (tx : TransactionState) (freshId sid : String)
    (hsid : tx.segmentId = some sid)
    (hsidlen : sid.data.length ≤ 16)
    (hsidhex : ∀ c ∈ sid.data, isHexLower c = true)
    (hsidnz : ∃ c ∈ sid.data, c ≠ '0')
    (htidlen : tx.traceId.data.length ≤ 32)
    (htidhex : ∀ c ∈ tx.traceId.data, isHexLower c = true)
    (htidnz : ∃ c ∈ tx.traceId.data, c ≠ '0') :
    traceparentHeader tx freshId ≠ "" ∧
    validateAndParseTraceParentHeader (traceparentHeader tx freshId)
      = .ok ⟨true, some "00", some (padStart tx.traceId 32 '0'),
             some (padStart sid 16 '0'), some (createFlagsHex tx.sampled)⟩ := by
  have hsidnz2 := hsidnz
  obtain ⟨c0, hc0, _⟩ := hsidnz2
  have hsidne : sid ≠ "" := ne_empty_of_mem hc0
  obtain ⟨hTlen, hThex, _⟩ := padHex_facts htidlen htidhex htidnz
  obtain ⟨hPlen, hPhex, _⟩ := padHex_facts hsidlen hsidhex hsidnz
  have htpdata : (traceparentHeader tx freshId).data
      = '0' :: '0' :: '-' :: ((padStart tx.traceId 32 '0').data ++ '-' ::
        ((padStart sid 16 '0').data ++ '-' :: (createFlagsHex tx.sampled).data)) := by
    rw [traceparentHeader]
    simp only [hsid, Option.getD_some, if_neg hsidne, W3C_TRACEPARENT_VERSION]
    simp [String.data_append]
  have hTdash : '-' ∉ (padStart tx.traceId 32 '0').data :=
    mem_all_ne hThex (by decide)
  have hPdash : '-' ∉ (padStart sid 16 '0').data := mem_all_ne hPhex (by decide)
  have hFdash : '-' ∉ (createFlagsHex tx.sampled).data := by
    rw [createFlagsHex_eq]
    cases tx.sampled <;> decide
  have hsplit : jsSplit (traceparentHeader tx freshId) '-'
      = ["00", padStart tx.traceId 32 '0', padStart sid 16 '0',
         createFlagsHex tx.sampled] := by
    rw [jsSplit, htpdata]
    have h4 := @splitChars_four ['0', '0'] _ _ _ '-' (by decide) hTdash hPdash hFdash
    rw [show ('0' :: '0' :: '-' :: ((padStart tx.traceId 32 '0').data ++ '-' ::
        ((padStart sid 16 '0').data ++ '-' :: (createFlagsHex tx.sampled).data)))
      = (['0', '0'] ++ '-' :: ((padStart tx.traceId 32 '0').data ++ '-' ::
        ((padStart sid 16 '0').data ++ '-' :: (createFlagsHex tx.sampled).data)))
      from rfl, h4]
    rfl
  have hne : traceparentHeader tx freshId ≠ "" :=
    ne_empty_of_data_ne_nil (by rw [htpdata]; simp)
  refine ⟨hne, ?_⟩
  rw [validateAndParseTraceParentHeader, if_neg hne]
  simp only [hsplit, List.headI, List.length_cons, List.length_nil]
  rw [if_neg (by simp [W3C_TRACEPARENT_VERSION])]
  have hv00 : versionValid "00" = true := by decide
  simp only [hv00, if_true, List.getElem?_cons_zero, List.getElem?_cons_succ,
    traceIdValid_padStart htidlen htidhex htidnz, if_true,
    parentIdValid_padStart hsidlen hsidhex hsidnz,
    flagsValid_createFlagsHex]

theorem natRepr_data (n : ℕ) : (natRepr n).data = natToDigits n := rfl

theorem natRepr_ne_empty (n : ℕ) : natRepr n ≠ "" :=
  ne_empty_of_data_ne_nil (by rw [natRepr_data]; exact natToDigits_ne_nil n)

theorem natRepr_no_dash (n : ℕ) : '-' ∉ (natRepr n).data := by
  rw [natRepr_data]
  exact mem_all_ne (natToDigits_all_digit n) (by decide)

theorem natRepr_no_delims (n : ℕ) :
    ∀ c ∈ (natRepr n).data, c ≠ ',' ∧ c ≠ '=' := by
  rw [natRepr_data]
  exact fun c hc => (natToDigits_no_delims n c hc).2

theorem nr_tracestate_decodes (K : String) (VD : List Char) (ts : String)
    (hK : ∀ c ∈ K.data, c ≠ ',' ∧ c ≠ '=')
    (hVD : ∀ c ∈ VD, c ≠ ',' ∧ c ≠ '=')
    (hts : ts.data = K.data ++ '@' :: 'n' :: 'r' :: '=' :: VD) :
    jsSplit ts ',' = [ts] ∧
    jsSplit ts '=' = [K ++ "@nr", String.mk VD] ∧
    (∀ lm ∈ jsSplit ts ',', (jsSplit lm '=').length = 2) ∧
    ((jsSplit ts ',').map (fun lm => (jsSplit lm '=').headI)).findIdx?
        (· = K ++ "@nr") = some 0 ∧
    ((jsSplit ((jsSplit ts ',').getD 0 "") '=').getD 1 "") = String.mk VD := by
  have hcomma : ',' ∉ ts.data := by
    rw [hts]
    intro hm
    rcases List.mem_append.mp hm with hm | hm
    · exact (hK _ hm).1 rfl
    · simp only [List.mem_cons] at hm
      rcases hm with hm | hm | hm | hm | hm
      · exact absurd hm.symm (by decide)
      · exact absurd hm.symm (by decide)
      · exact absurd hm.symm (by decide)
      · exact absurd hm.symm (by decide)
      · exact (hVD _ hm).1 rfl
  have hs1 : jsSplit ts ',' = [ts] := by
    rw [jsSplit, splitChars_eq_single hcomma]
    rfl
  have hshape : ts.data = (K.data ++ ['@', 'n', 'r']) ++ '=' :: VD := by
    rw [hts]
    simp
  have heqK : '=' ∉ K.data ++ ['@', 'n', 'r'] := by
    intro hm
    rcases List.mem_append.mp hm with hm | hm
    · exact (hK _ hm).2 rfl
    · simp only [List.mem_cons] at hm
      rcases hm with hm | hm | hm | hm <;> first
        | exact absurd hm.symm (by decide)
        | exact absurd hm (List.not_mem_nil _)
  have heqVD : '=' ∉ VD := fun hm => (hVD _ hm).2 rfl
  have hKnr : String.mk (K.data ++ ['@', 'n', 'r']) = K ++ "@nr" := by
    apply string_eq_of_data
    simp [String.data_append]
  have hs2 : jsSplit ts '=' = [K ++ "@nr", String.mk VD] := by
    rw [jsSplit, hshape, splitChars_append heqK, splitChars_eq_single heqVD]
    simp only [List.map]
    rw [hKnr]
  refine ⟨hs1, hs2, ?_, ?_, ?_⟩
  · intro lm hm
    rw [hs1, List.mem_singleton] at hm
    subst hm
    rw [hs2]
    rfl
  · rw [hs1]
    simp only [List.map, hs2, List.headI, List.findIdx?_cons]
    simp
  · rw [hs1]
    show ((jsSplit ts '=').getD 1 "") = String.mk VD
    rw [hs2]
    rfl

theorem vendor_value_validated
    (A B S T s10 pstr : String) (timestamp : ℕ) (sb : Bool) (pOpt : Option ℚ)
    (hA : A ≠ "") (hB : B ≠ "")
    (hdA : '-' ∉ A.data) (hdB : '-' ∉ B.data) (hdS : '-' ∉ S.data)
    (hdT : '-' ∉ T.data) (hds : '-' ∉ s10.data) (hdp : '-' ∉ pstr.data)
    (hs10ne : s10 ≠ "")
    (hs10parse : parseIntStr10 s10 = .num (if sb then 1 else 0))
    (hpparse : (if pstr = "" then none else some pstr).map parseFloatStr
        = pOpt.map JNum.num) :
    validateAndParseIntrinsics (String.mk ((natRepr 0).data ++ '-' ::
        ((natRepr 0).data ++ '-' :: (A.data ++ '-' :: (B.data ++ '-' ::
         (S.data ++ '-' :: (T.data ++ '-' :: (s10.data ++ '-' ::
          (pstr.data ++ '-' :: (natRepr timestamp).data)))))))))
      = { version := .num 0, parentType := some "App", accountId := some A,
          appId := some B,
          spanId := if S = "" then none else some S,
          transactionId := if T = "" then none else some T,
          sampled := sb,
          priority := pOpt.map JNum.num,
          timestamp := .num timestamp,
          entryValid := true, entryInvalidReason := none } := by
  have hsplit : jsSplit (String.mk ((natRepr 0).data ++ '-' ::
      ((natRepr 0).data ++ '-' :: (A.data ++ '-' :: (B.data ++ '-' ::
       (S.data ++ '-' :: (T.data ++ '-' :: (s10.data ++ '-' ::
        (pstr.data ++ '-' :: (natRepr timestamp).data))))))))) '-'
      = [natRepr 0, natRepr 0, A, B, S, T, s10, pstr, natRepr timestamp] := by
    rw [jsSplit]
    rw [show (String.mk ((natRepr 0).data ++ '-' :: ((natRepr 0).data ++ '-' ::
      (A.data ++ '-' :: (B.data ++ '-' :: (S.data ++ '-' :: (T.data ++ '-' ::
      (s10.data ++ '-' :: (pstr.data ++ '-' :: (natRepr timestamp).data))))))))).data
      = ((natRepr 0).data ++ '-' :: ((natRepr 0).data ++ '-' ::
      (A.data ++ '-' :: (B.data ++ '-' :: (S.data ++ '-' :: (T.data ++ '-' ::
      (s10.data ++ '-' :: (pstr.data ++ '-' :: (natRepr timestamp).data))))))))
      from rfl]
    rw [splitChars_nine '-' (natRepr_no_dash 0) (natRepr_no_dash 0) hdA hdB hdS
      hdT hds hdp (natRepr_no_dash timestamp)]
    rfl
  have hextract : extractTraceStateIntrinsics (String.mk ((natRepr 0).data ++ '-' ::
      ((natRepr 0).data ++ '-' :: (A.data ++ '-' :: (B.data ++ '-' ::
       (S.data ++ '-' :: (T.data ++ '-' :: (s10.data ++ '-' ::
        (pstr.data ++ '-' :: (natRepr timestamp).data)))))))))
      = { version := some (natRepr 0), parentType := some (natRepr 0),
          accountId := some A, appId := some B,
          spanId := if S = "" then none else some S,
          transactionId := if T = "" then none else some T,
          sampled := some s10,
          priority := if pstr = "" then none else some pstr,
          timestamp := some (natRepr timestamp) } := by
    rw [extractTraceStateIntrinsics, hsplit]
    simp [natRepr_ne_empty, hA, hB, hs10ne]
  have hparsed : parseIntrinsics (String.mk ((natRepr 0).data ++ '-' ::
      ((natRepr 0).data ++ '-' :: (A.data ++ '-' :: (B.data ++ '-' ::
       (S.data ++ '-' :: (T.data ++ '-' :: (s10.data ++ '-' ::
        (pstr.data ++ '-' :: (natRepr timestamp).data)))))))))
      = { version := .num 0, parentType := .num 0,
          accountId := some A, appId := some B,
          spanId := if S = "" then none else some S,
          transactionId := if T = "" then none else some T,
          sampled := some (.num (if sb then 1 else 0)),
          priority := pOpt.map JNum.num,
          timestamp := .num timestamp } := by
    have e0 : parseIntStr (natRepr 0) = .num 0 := by
      simpa using parseIntStr_natRepr 0
    have et : parseIntStr (natRepr timestamp) = .num timestamp :=
      parseIntStr_natRepr timestamp
    rw [parseIntrinsics, hextract]
    simp only [show ∀ s, parseIntJS (some s) = parseIntStr s from fun _ => rfl,
      e0, et, Option.map_some', hs10parse, hpparse]
  rw [validateAndParseIntrinsics, hparsed]
  have hsampled : jsTruthySampled (some (.num (if sb then 1 else 0))) = sb := by
    cases sb <;> simp [jsTruthySampled]
  have hpt : jsArrayGet PARENT_TYPES (.num 0) = some "App" := by
    rw [jsArrayGet]
    norm_num [PARENT_TYPES]
  have hprio : isNaNOpt (pOpt.map JNum.num) = false := by
    cases pOpt <;> simp [isNaNOpt, isNaNJNum]
  simp only [hsampled, hpt, hprio]
  simp [isNaNJNum, isNullNum, isNaNOpt]

theorem tracestateHeader_shape (config : AgentConfig) (tx : TransactionState)
    (sid : String) (timestamp : ℕ)
    (hsid : tx.segmentId = some sid)
    (hspan : config.span_events_enabled = true)
    (hte : config.transaction_events_enabled = true) :
    (tracestateHeader config tx none timestamp).data
      = config.trusted_account_key.data ++ '@' :: 'n' :: 'r' :: '=' ::
        ((natRepr 0).data ++ '-' :: ((natRepr 0).data ++ '-' ::
         (config.account_id.data ++ '-' :: (config.primary_application_id.data ++ '-' ::
          (sid.data ++ '-' :: (tx.id.data ++ '-' ::
           (((if tx.sampled then "1" else "0") : String).data ++ '-' ::
            (((match tx.priority with
                | none => ""
                | some q => if q = 0 then "" else toFixed6 q) : String).data ++ '-' ::
             (natRepr timestamp).data)))))))) := by
  rw [tracestateHeader]
  simp only [hsid, hspan, hte, if_true, Option.getD_some, Option.getD_none]
  rw [show intRepr (jsIndexOf PARENT_TYPES "App") = natRepr 0 from rfl,
    show natRepr NR_TRACESTATE_VERSION = natRepr 0 from rfl]
  simp [String.data_append,
    show ("@nr=" : String).data = ['@', 'n', 'r', '='] from rfl,
    show ("-" : String).data = ['-'] from rfl]

/-- C2: encoding the traceparent and tracestate headers from a unit of work
with well-formed identifiers and decoding them back under the same trusted
account key accepts both headers and returns every intrinsic field
(parentType, accountId, appId, transactionId, sampled, priority) equal,
after the type coercions of the decode path, to the encoded state. -/
theorem c2_roundtrip
    (config : AgentConfig) (tx : TransactionState) (freshId sid : String)
    (timestamp : ℕ) (now : ℚ)
    (hsid : tx.segmentId = some sid)
    (hsidlen : sid.data.length ≤ 16)
    (hsidhex : ∀ c ∈ sid.data, isHexLower c = true)
    (hsidnz : ∃ c ∈ sid.data, c ≠ '0')
    (htidlen : tx.traceId.data.length ≤ 32)
    (htidhex : ∀ c ∈ tx.traceId.data, isHexLower c = true)
    (htidnz : ∃ c ∈ tx.traceId.data, c ≠ '0')
    (hkey : ∀ c ∈ config.trusted_account_key.data, c ≠ ',' ∧ c ≠ '=')
    (hacc : config.account_id ≠ "" ∧
      ∀ c ∈ config.account_id.data, c ≠ '-' ∧ c ≠ ',' ∧ c ≠ '=')
    (happ : config.primary_application_id ≠ "" ∧
      ∀ c ∈ config.primary_application_id.data, c ≠ '-' ∧ c ≠ ',' ∧ c ≠ '=')
    (htx : tx.id ≠ "" ∧ ∀ c ∈ tx.id.data, c ≠ '-' ∧ c ≠ ',' ∧ c ≠ '=')
    (hspan : config.span_events_enabled = true)
    (hte : config.transaction_events_enabled = true)
    (hpri : tx.priority = none ∨
      ∃ q, tx.priority = some q ∧ 0 < q ∧ (q * 1000000).den = 1) :
    ∃ d st2,
      acceptTraceContextPayload config.trusted_account_key initialCodecState
        (traceparentHeader tx freshId)
        (tracestateHeader config tx none timestamp) now = .ok (d, st2) ∧
      d.acceptedTraceparent = true ∧
      d.acceptedTracestate = true ∧
      d.parentType = some "App" ∧
      d.accountId = some config.account_id ∧
      d.appId = some config.primary_application_id ∧
      d.transactionId = some tx.id ∧
      d.sampled = some tx.sampled ∧
      d.priority = tx.priority.map JNum.num := by
  obtain ⟨htpne, hpp⟩ := traceparentHeader_parses tx freshId sid hsid hsidlen
    hsidhex hsidnz htidlen htidhex htidnz
  -- facts about the sampled and priority chunks
  have hs10facts : ('-' ∉ ((if tx.sampled then "1" else "0") : String).data) ∧
      (∀ c ∈ ((if tx.sampled then "1" else "0") : String).data, c ≠ ',' ∧ c ≠ '=') ∧
      ((if tx.sampled then "1" else "0") : String) ≠ "" ∧
      parseIntStr10 (if tx.sampled then "1" else "0")
        = .num (if tx.sampled then 1 else 0) := by
    cases tx.sampled <;> exact ⟨by decide, by decide, by decide, by decide⟩
  have hpfacts : ('-' ∉ ((match tx.priority with
        | none => ""
        | some q => if q = 0 then "" else toFixed6 q) : String).data) ∧
      (∀ c ∈ ((match tx.priority with
        | none => ""
        | some q => if q = 0 then "" else toFixed6 q) : String).data,
        c ≠ ',' ∧ c ≠ '=') ∧
      ((if ((match tx.priority with
          | none => ""
          | some q => if q = 0 then "" else toFixed6 q) : String) = "" then none
        else some ((match tx.priority with
          | none => ""
          | some q => if q = 0 then "" else toFixed6 q) : String)).map parseFloatStr
        = tx.priority.map JNum.num) := by
    rcases hpri with h | ⟨q, hq, hq0, hqden⟩
    · rw [h]
      exact ⟨by decide, by decide, by decide⟩
    · rw [hq]
      have hne0 : q ≠ 0 := ne_of_gt hq0
      simp only [if_neg hne0]
      refine ⟨?_, ?_, ?_⟩
      · exact fun hm => (toFixed6_no_delims q _ hm).1 rfl
      · exact fun c hm => ⟨(toFixed6_no_delims q c hm).2.1,
          (toFixed6_no_delims q c hm).2.2⟩
      · rw [if_neg (toFixed6_ne_empty q)]
        simp only [Option.map_some']
        rw [parseFloatStr_toFixed6 hq0 hqden]
  -- the header shape and its decomposition
  have hshape := tracestateHeader_shape config tx sid timestamp hsid hspan hte
  have hVD : ∀ c ∈ ((natRepr 0).data ++ '-' :: ((natRepr 0).data ++ '-' ::
      (config.account_id.data ++ '-' :: (config.primary_application_id.data ++ '-' ::
       (sid.data ++ '-' :: (tx.id.data ++ '-' ::
        (((if tx.sampled then "1" else "0") : String).data ++ '-' ::
         (((match tx.priority with
             | none => ""
             | some q => if q = 0 then "" else toFixed6 q) : String).data ++ '-' ::
          (natRepr timestamp).data)))))))), c ≠ ',' ∧ c ≠ '=' := by
    intro c hm
    simp only [List.mem_append, List.mem_cons] at hm
    rcases hm with h | rfl | h | rfl | h | rfl | h | rfl | h | rfl | h | rfl | h |
      rfl | h | rfl | h
    · exact natRepr_no_delims 0 c h
    · exact ⟨by decide, by decide⟩
    · exact natRepr_no_delims 0 c h
    · exact ⟨by decide, by decide⟩
    · exact ⟨(hacc.2 c h).2.1, (hacc.2 c h).2.2⟩
    · exact ⟨by decide, by decide⟩
    · exact ⟨(happ.2 c h).2.1, (happ.2 c h).2.2⟩
    · exact ⟨by decide, by decide⟩
    · exact ⟨(hex_ne_delims (hsidhex c h)).2.1, (hex_ne_delims (hsidhex c h)).2.2⟩
    · exact ⟨by decide, by decide⟩
    · exact ⟨(htx.2 c h).2.1, (htx.2 c h).2.2⟩
    · exact ⟨by decide, by decide⟩
    · exact hs10facts.2.1 c h
    · exact ⟨by decide, by decide⟩
    · exact hpfacts.2.1 c h
    · exact ⟨by decide, by decide⟩
    · exact natRepr_no_delims timestamp c h
  obtain ⟨hm1, hm2, hmembers, hfind, hvalue⟩ := nr_tracestate_decodes
    config.trusted_account_key _ (tracestateHeader config tx none timestamp)
    hkey hVD hshape
  have htsne : tracestateHeader config tx none timestamp ≠ "" :=
    ne_empty_of_data_ne_nil (by
      rw [hshape]
      intro hnil
      rcases config.trusted_account_key.data with _ | ⟨a, l⟩ <;> simp at hnil)
  -- the vendor value validates
  have hvv := vendor_value_validated config.account_id
    config.primary_application_id sid tx.id
    ((if tx.sampled then "1" else "0") : String)
    ((match tx.priority with
      | none => ""
      | some q => if q = 0 then "" else toFixed6 q) : String)
    timestamp tx.sampled tx.priority
    hacc.1 happ.1
    (fun hm => (hacc.2 _ hm).1 rfl) (fun hm => (happ.2 _ hm).1 rfl)
    (mem_all_ne hsidhex (by decide)) (fun hm => (htx.2 _ hm).1 rfl)
    hs10facts.1 hpfacts.1 hs10facts.2.2.1 hs10facts.2.2.2 hpfacts.2.2
  -- the tracestate parser result
  have hps := @parseTraceState_found config.trusted_account_key
    (tracestateHeader config tx none timestamp) 0 hmembers hfind
  have hfull : validateAndParseTraceStateHeader config.trusted_account_key
      (tracestateHeader config tx none timestamp)
      = { entryFound := true, entryValid := some true, entryInvalidReason := none,
          traceStateValid := some true,
          intrinsics := some
            { version := .num 0, parentType := some "App",
              accountId := some config.account_id,
              appId := some config.primary_application_id,
              spanId := if sid = "" then none else some sid,
              transactionId := if tx.id = "" then none else some tx.id,
              sampled := tx.sampled,
              priority := tx.priority.map JNum.num,
              timestamp := .num timestamp,
              entryValid := true, entryInvalidReason := none },
          newTraceState := some (jsJoin ',' ([] : List String)),
          vendors := [] } := by
    rw [hps]
    simp only
    rw [hvalue, hvv, hm1]
    simp
  obtain ⟨c0, hc0, _⟩ := hsidnz
  have hsidne : sid ≠ "" := ne_empty_of_mem hc0
  have hintr : (validateAndParseTraceStateHeader config.trusted_account_key
      (tracestateHeader config tx none timestamp)).intrinsics
      = some
        { version := .num 0, parentType := some "App",
          accountId := some config.account_id,
          appId := some config.primary_application_id,
          spanId := if sid = "" then none else some sid,
          transactionId := if tx.id = "" then none else some tx.id,
          sampled := tx.sampled,
          priority := tx.priority.map JNum.num,
          timestamp := .num timestamp,
          entryValid := true, entryInvalidReason := none } := by
    rw [hfull]
  rw [accept_of_entry_valid htpne hpp (by rfl) htsne (by rw [hfull]) (by rw [hfull])
    hintr]
  refine ⟨_, _, rfl, rfl, rfl, rfl, rfl, rfl, ?_, rfl, rfl⟩
  simp [if_neg htx.1]

/-- Witness for C2 at a fully concrete unit of work. -/
theorem c2_roundtrip_witness :
    ∃ d st2,
      acceptTraceContextPayload "xyz" initialCodecState
        (traceparentHeader
          ⟨"4bf92f3577b34da6a3ce929d0e0e4736", some "7d3efb1b173fecfa",
           "e8b91a159289ff74", true, some (1123456 / 1000000)⟩ "f")
        (tracestateHeader ⟨"xyz", "33", "2827902", true, true⟩
          ⟨"4bf92f3577b34da6a3ce929d0e0e4736", some "7d3efb1b173fecfa",
           "e8b91a159289ff74", true, some (1123456 / 1000000)⟩
          none 1569367663277) 0 = .ok (d, st2) ∧
      d.acceptedTraceparent = true ∧
      d.acceptedTracestate = true ∧
      d.parentType = some "App" ∧
      d.accountId = some "33" ∧
      d.appId = some "2827902" ∧
      d.transactionId = some "e8b91a159289ff74" ∧
      d.sampled = some true ∧
      d.priority = some (.num (1123456 / 1000000)) :=
  c2_roundtrip ⟨"xyz", "33", "2827902", true, true⟩
    ⟨"4bf92f3577b34da6a3ce929d0e0e4736", some "7d3efb1b173fecfa",
     "e8b91a159289ff74", true, some (1123456 / 1000000)⟩
    "f" "7d3efb1b173fecfa" 1569367663277 0 rfl (by decide) (by decide)
    (by decide) (by decide) (by decide) (by decide) (by decide)
    ⟨by decide, by decide⟩ ⟨by decide, by decide⟩ ⟨by decide, by decide⟩
    rfl rfl (Or.inr ⟨1123456 / 1000000, rfl, by decide, by decide⟩)

/-- Witness for C4 at a concrete traceparent with version ff. -/
theorem c4_invalid_fields_reject_traceparent_witness :
    validateAndParseTraceParentHeader
      "ff-4bf92f3577b34da6a3ce929d0e0e4736-00f067aa0ba902b7-01"
      = .ok emptyTraceParentInfo ∧
    ∃ d st2, acceptTraceContextPayload "xyz" initialCodecState
      "ff-4bf92f3577b34da6a3ce929d0e0e4736-00f067aa0ba902b7-01" "" 0
      = .ok (d, st2) ∧ d.acceptedTraceparent = false :=
  c4_invalid_fields_reject_traceparent
    "ff-4bf92f3577b34da6a3ce929d0e0e4736-00f067aa0ba902b7-01" "xyz" ""
    initialCodecState 0 (Or.inl (by rfl))

/-- Witness for C5 at a concrete malformed tracestate. -/
theorem c5_malformed_member_invalidates_whole_tracestate_witness :
    (validateAndParseTraceStateHeader "xyz" "foo").traceStateValid = some false ∧
    acceptTraceContextPayload "xyz" initialCodecState
      "00-4bf92f3577b34da6a3ce929d0e0e4736-00f067aa0ba902b7-01" "foo" 0
      = .ok (acceptedParentData ⟨true, some "00",
          some "4bf92f3577b34da6a3ce929d0e0e4736", some "00f067aa0ba902b7",
          some "01"⟩, initialCodecState) ∧
    (acceptedParentData ⟨true, some "00",
        some "4bf92f3577b34da6a3ce929d0e0e4736", some "00f067aa0ba902b7",
        some "01"⟩).acceptedTracestate = false ∧
    (acceptedParentData ⟨true, some "00",
        some "4bf92f3577b34da6a3ce929d0e0e4736", some "00f067aa0ba902b7",
        some "01"⟩).acceptedTraceparent = true ∧
    (acceptedParentData ⟨true, some "00",
        some "4bf92f3577b34da6a3ce929d0e0e4736", some "00f067aa0ba902b7",
        some "01"⟩).traceId = some "4bf92f3577b34da6a3ce929d0e0e4736" ∧
    (acceptedParentData ⟨true, some "00",
        some "4bf92f3577b34da6a3ce929d0e0e4736", some "00f067aa0ba902b7",
        some "01"⟩).parentSpanId = some "00f067aa0ba902b7" :=
  c5_malformed_member_invalidates_whole_tracestate "xyz" initialCodecState
    "00-4bf92f3577b34da6a3ce929d0e0e4736-00f067aa0ba902b7-01" "foo" 0
    ⟨true, some "00", some "4bf92f3577b34da6a3ce929d0e0e4736",
     some "00f067aa0ba902b7", some "01"⟩
    (by decide) (by decide) rfl rfl (by decide)

/-- Witness for C6 at the concrete example tracestate. -/
theorem c6_passthrough_excludes_first_matched_member_witness :
    (validateAndParseTraceStateHeader "xyz"
        "other=1,xyz@nr=0-0-33-2827902-7d3efb1b173fecfa-e8b91a159289ff74-1-1.123456-1569367663277,another=2").newTraceState
      = some (jsJoin ',' ((jsSplit
          "other=1,xyz@nr=0-0-33-2827902-7d3efb1b173fecfa-e8b91a159289ff74-1-1.123456-1569367663277,another=2"
          ',').eraseIdx 1)) ∧
    (∃ d st2, acceptTraceContextPayload "xyz" initialCodecState
      "00-4bf92f3577b34da6a3ce929d0e0e4736-00f067aa0ba902b7-01"
      "other=1,xyz@nr=0-0-33-2827902-7d3efb1b173fecfa-e8b91a159289ff74-1-1.123456-1569367663277,another=2"
      0 = .ok (d, st2) ∧
      st2.traceStateRaw = some (jsJoin ',' ((jsSplit
          "other=1,xyz@nr=0-0-33-2827902-7d3efb1b173fecfa-e8b91a159289ff74-1-1.123456-1569367663277,another=2"
          ',').eraseIdx 1))) ∧
    (validateAndParseTraceStateHeader "xyz"
        "other=1,xyz@nr=0-0-33-2827902-7d3efb1b173fecfa-e8b91a159289ff74-1-1.123456-1569367663277,another=2").newTraceState
      = some "other=1,another=2" ∧
    ∃ d2 st3, acceptTraceContextPayload "xyz" initialCodecState
        "00-4bf92f3577b34da6a3ce929d0e0e4736-00f067aa0ba902b7-01"
        "other=1,xyz@nr=0-0-33-2827902-7d3efb1b173fecfa-e8b91a159289ff74-1-1.123456-1569367663277,another=2"
        0 = .ok (d2, st3) ∧
      st3.traceStateRaw = some "other=1,another=2" :=
  c6_passthrough_excludes_first_matched_member "xyz"
    "other=1,xyz@nr=0-0-33-2827902-7d3efb1b173fecfa-e8b91a159289ff74-1-1.123456-1569367663277,another=2"
    1 initialCodecState
    "00-4bf92f3577b34da6a3ce929d0e0e4736-00f067aa0ba902b7-01" 0
    ⟨true, some "00", some "4bf92f3577b34da6a3ce929d0e0e4736",
     some "00f067aa0ba902b7", some "01"⟩
    (by decide) (by rfl) (by decide) rfl rfl (by decide)

/-- Witness for C7 at a concrete tracestate whose vendor timestamp is the
string notanumber. -/
theorem c7_nonnumeric_timestamp_rejected_but_stripped_witness :
    ∃ d st2, acceptTraceContextPayload "xyz" initialCodecState
      "00-4bf92f3577b34da6a3ce929d0e0e4736-00f067aa0ba902b7-01"
      "aa=1,xyz@nr=0-0-33-2827902-7d3efb1b173fecfa-e8b91a159289ff74-1-1.123456-notanumber,bb=2"
      0 = .ok (d, st2) ∧
      d.acceptedTracestate = false ∧
      st2.traceStateRaw = some (jsJoin ',' ((jsSplit
        "aa=1,xyz@nr=0-0-33-2827902-7d3efb1b173fecfa-e8b91a159289ff74-1-1.123456-notanumber,bb=2"
        ',').eraseIdx 1)) :=
  c7_nonnumeric_timestamp_rejected_but_stripped "xyz"
    "aa=1,xyz@nr=0-0-33-2827902-7d3efb1b173fecfa-e8b91a159289ff74-1-1.123456-notanumber,bb=2"
    "notanumber" 1 initialCodecState
    "00-4bf92f3577b34da6a3ce929d0e0e4736-00f067aa0ba902b7-01" 0
    ⟨true, some "00", some "4bf92f3577b34da6a3ce929d0e0e4736",
     some "00f067aa0ba902b7", some "01"⟩
    (by decide) (by rfl) (by rfl) (by rfl) (by decide) rfl rfl (by decide)

/-- Witness for the amended C8 at the concrete example tracestate. -/
theorem c8_vendors_exclude_first_matched_key_witness :
    (validateAndParseTraceStateHeader "xyz"
        "other=1,xyz@nr=0-0-33-2827902-7d3efb1b173fecfa-e8b91a159289ff74-1-1.123456-1569367663277,another=2").vendors
      = (((jsSplit
          "other=1,xyz@nr=0-0-33-2827902-7d3efb1b173fecfa-e8b91a159289ff74-1-1.123456-1569367663277,another=2"
          ',').map (fun lm => (jsSplit lm '=').headI)).eraseIdx 1).map some ∧
    ∃ d st2, acceptTraceContextPayload "xyz" initialCodecState
      "00-4bf92f3577b34da6a3ce929d0e0e4736-00f067aa0ba902b7-01"
      "other=1,xyz@nr=0-0-33-2827902-7d3efb1b173fecfa-e8b91a159289ff74-1-1.123456-1569367663277,another=2"
      0 = .ok (d, st2) ∧
      st2.tracingVendors = some (jsJoin ',' (((jsSplit
        "other=1,xyz@nr=0-0-33-2827902-7d3efb1b173fecfa-e8b91a159289ff74-1-1.123456-1569367663277,another=2"
        ',').map (fun lm => (jsSplit lm '=').headI)).eraseIdx 1)) :=
  c8_vendors_exclude_first_matched_key "xyz"
    "other=1,xyz@nr=0-0-33-2827902-7d3efb1b173fecfa-e8b91a159289ff74-1-1.123456-1569367663277,another=2"
    1 initialCodecState
    "00-4bf92f3577b34da6a3ce929d0e0e4736-00f067aa0ba902b7-01" 0
    ⟨true, some "00", some "4bf92f3577b34da6a3ce929d0e0e4736",
     some "00f067aa0ba902b7", some "01"⟩
    (by decide) (by rfl) (by decide) rfl rfl (by decide)

/-- Witness for C10 at a concrete vendor entry with an empty sampled slot. -/
theorem c10_absent_sampled_becomes_false_witness :
    (validateAndParseIntrinsics "0-0-33-2827902-----1569367663277").sampled
      = false ∧
    ∃ d st2, acceptTraceContextPayload "xyz" initialCodecState
      "00-4bf92f3577b34da6a3ce929d0e0e4736-00f067aa0ba902b7-01"
      "xyz@nr=0-0-33-2827902-----1569367663277" 0 = .ok (d, st2) ∧
      d.acceptedTracestate = true ∧ d.sampled = some false :=
  ⟨c10_absent_sampled_becomes_false.1 "0-0-33-2827902-----1569367663277" rfl,
   c10_absent_sampled_becomes_false.2 "xyz" initialCodecState
     "00-4bf92f3577b34da6a3ce929d0e0e4736-00f067aa0ba902b7-01"
     "xyz@nr=0-0-33-2827902-----1569367663277" 0
     ⟨true, some "00", some "4bf92f3577b34da6a3ce929d0e0e4736",
      some "00f067aa0ba902b7", some "01"⟩
     { version := .num 0, parentType := some "App", accountId := some "33",
       appId := some "2827902", spanId := none, transactionId := none,
       sampled := false, priority := none, timestamp := .num 1569367663277,
       entryValid := true, entryInvalidReason := none }
     (by decide) rfl rfl (by decide) rfl rfl rfl⟩

end TraceCtx
